import Mathlib

/-!
The g2psim core: coordinate frames, material interaction and target physics.

A shallow embedding of `G2PGeoBase.cc`, `G2PMaterial.cc` and `G2PPhysBase.cc`.

* In `G2PGeoBase` and `G2PPhysBase` no division occurs, so a `double` is read as an
  exact number of an ordered field `K` (the reals in the theorems); `sin` and `cos`
  are passed in, so that the definitions stay executable.
* In `G2PMaterial` divisions by zero can occur, so a `double` is read as `Dbl K`:
  an exact number or one of the special values `+inf`, `-inf`, `NaN`. The functions of
  `<cmath>` are passed in as a `Libm K`; `Libm.real` is their reading on the reals.
* Code that is called but is not part of the sources (`G2PAppBase::Begin`,
  `G2PAppBase::ConfigureFromList`, `G2PRand`) is passed in as a parameter.
-/

namespace G2P

/-! ## G2PGeoBase -/

section GeoBase

variable {K : Type} [LinearOrderedField K]

/-- Modelled from the spec: the status enumeration of `G2PAppBase`, whose header is not
part of the sources; only the two values assigned by `G2PGeoBase::Begin` are listed. -/
inductive EStatus where
  | kOK
  | kBEGINERROR
deriving DecidableEq, Repr

/-- The four member functions `pfLab2Geo` can point to. -/
inductive PfLab2Geo where
  | Lab2Geo
  | Lab2GeoNoT
  | Lab2GeoNoR
  | Lab2GeoNoTNoR
deriving DecidableEq, Repr

/-- The four member functions `pfGeo2Lab` can point to. -/
inductive PfGeo2Lab where
  | Geo2Lab
  | Geo2LabNoT
  | Geo2LabNoR
  | Geo2LabNoTNoR
deriving DecidableEq, Repr

/-- The data members of `G2PGeoBase` (and `fStatus`, inherited from `G2PAppBase`).
A `NULL` member-function pointer is `none`. -/
structure G2PGeoBase (K : Type) where
  fStatus : EStatus
  fUseTrans : Bool
  fOrigin : Fin 3 → K
  fEulerAngle : Fin 3 → K
  fRotationMatrix : Fin 2 → Matrix (Fin 3) (Fin 3) K
  fTranslation : Bool
  fRotation : Bool
  pfLab2Geo : Option PfLab2Geo
  pfGeo2Lab : Option PfGeo2Lab

/-- The constructor `G2PGeoBase::G2PGeoBase()`: flags false, pointers `NULL`, arrays zeroed
by `memset`. The inherited status is whatever the base-class constructor left. -/
def G2PGeoBase.new (status : EStatus) : G2PGeoBase K :=
  { fStatus := status
    fUseTrans := false
    fOrigin := fun _ => 0
    fEulerAngle := fun _ => 0
    fRotationMatrix := fun _ _ _ => 0
    fTranslation := false
    fRotation := false
    pfLab2Geo := none
    pfGeo2Lab := none }

/-- The method `G2PGeoBase::SetOrigin` (the bookkeeping set `fConfigIsSet` is not modelled). -/
def SetOrigin (x y z : K) (g : G2PGeoBase K) : G2PGeoBase K :=
  { g with fOrigin := ![x, y, z] }

/-- The method `G2PGeoBase::SetEulerAngle` (the bookkeeping set `fConfigIsSet` is not
modelled). -/
def SetEulerAngle (alpha beta gamma : K) (g : G2PGeoBase K) : G2PGeoBase K :=
  { g with fEulerAngle := ![alpha, beta, gamma] }

/-- The assignment `fRotationMatrix[k][i][j] = v`. -/
def setEntry (M : Fin 2 → Matrix (Fin 3) (Fin 3) K) (k : Fin 2) (i j : Fin 3) (v : K) :
    Fin 2 → Matrix (Fin 3) (Fin 3) K :=
  fun k1 i1 j1 => if k1 = k ∧ i1 = i ∧ j1 = j then v else M k1 i1 j1

/-- The method `G2PGeoBase::SetGeoPosition`, assignment by assignment. -/
def SetGeoPosition (sin cos : K → K) (g : G2PGeoBase K) : G2PGeoBase K :=
  let g1 : G2PGeoBase K :=
    if |g.fOrigin 0| < 1e-5 ∧ |g.fOrigin 1| < 1e-5 ∧ |g.fOrigin 2| < 1e-5 then
      { g with fTranslation := false }
    else
      { g with fTranslation := true }
  if |g1.fEulerAngle 0| < 1e-5 ∧ |g1.fEulerAngle 1| < 1e-5 ∧ |g1.fEulerAngle 2| < 1e-5 then
    { g1 with fRotation := false }
  else
    let s1 := sin (g1.fEulerAngle 0)
    let c1 := cos (g1.fEulerAngle 0)
    let s2 := sin (g1.fEulerAngle 1)
    let c2 := cos (g1.fEulerAngle 1)
    let s3 := sin (g1.fEulerAngle 2)
    let c3 := cos (g1.fEulerAngle 2)
    let M := g1.fRotationMatrix
    let M := setEntry M 0 0 0 (c1 * c3 - c2 * s1 * s3)
    let M := setEntry M 0 1 0 (-c1 * s3 - c2 * s1 * c3)
    let M := setEntry M 0 2 0 (s2 * s1)
    let M := setEntry M 0 0 1 (s1 * c3 + c2 * c1 * s3)
    let M := setEntry M 0 1 1 (-s1 * s3 + c2 * c1 * c3)
    let M := setEntry M 0 2 1 (-s2 * c1)
    let M := setEntry M 0 0 2 (s2 * s3)
    let M := setEntry M 0 1 2 (s2 * c3)
    let M := setEntry M 0 2 2 c2
    let M := setEntry M 1 0 0 (c1 * c3 - c2 * s1 * s3)
    let M := setEntry M 1 0 1 (-c1 * s3 - c2 * c3 * s1)
    let M := setEntry M 1 0 2 (s1 * s2)
    let M := setEntry M 1 1 0 (c3 * s1 + c1 * c2 * s3)
    let M := setEntry M 1 1 1 (c1 * c2 * c3 - s1 * s3)
    let M := setEntry M 1 1 2 (-c1 * s2)
    let M := setEntry M 1 2 0 (s2 * s3)
    let M := setEntry M 1 2 1 (c3 * s2)
    let M := setEntry M 1 2 2 c2
    { g1 with fRotationMatrix := M, fRotation := true }

/-- The method `G2PGeoBase::Lab2GeoNoT`: the forward matrix applied to the point. -/
def Lab2GeoNoT (g : G2PGeoBase K) (V3_lab : Fin 3 → K) : Fin 3 → K :=
  ![g.fRotationMatrix 0 0 0 * V3_lab 0 + g.fRotationMatrix 0 0 1 * V3_lab 1
      + g.fRotationMatrix 0 0 2 * V3_lab 2,
    g.fRotationMatrix 0 1 0 * V3_lab 0 + g.fRotationMatrix 0 1 1 * V3_lab 1
      + g.fRotationMatrix 0 1 2 * V3_lab 2,
    g.fRotationMatrix 0 2 0 * V3_lab 0 + g.fRotationMatrix 0 2 1 * V3_lab 1
      + g.fRotationMatrix 0 2 2 * V3_lab 2]

/-- The method `G2PGeoBase::Lab2GeoNoR`: the origin subtracted from the point. -/
def Lab2GeoNoR (g : G2PGeoBase K) (V3_lab : Fin 3 → K) : Fin 3 → K :=
  ![V3_lab 0 - g.fOrigin 0, V3_lab 1 - g.fOrigin 1, V3_lab 2 - g.fOrigin 2]

/-- The method `G2PGeoBase::Lab2Geo`: `Lab2GeoNoR` into a temporary, then `Lab2GeoNoT`. -/
def Lab2Geo (g : G2PGeoBase K) (V3_lab : Fin 3 → K) : Fin 3 → K :=
  let temp := Lab2GeoNoR g V3_lab
  Lab2GeoNoT g temp

/-- The method `G2PGeoBase::Lab2GeoNoTNoR`: a copy of the point. -/
def Lab2GeoNoTNoR (_g : G2PGeoBase K) (V3_lab : Fin 3 → K) : Fin 3 → K :=
  ![V3_lab 0, V3_lab 1, V3_lab 2]

/-- The method `G2PGeoBase::Geo2LabNoT`: the stored inverse matrix applied to the point. -/
def Geo2LabNoT (g : G2PGeoBase K) (V3_geo : Fin 3 → K) : Fin 3 → K :=
  ![g.fRotationMatrix 1 0 0 * V3_geo 0 + g.fRotationMatrix 1 0 1 * V3_geo 1
      + g.fRotationMatrix 1 0 2 * V3_geo 2,
    g.fRotationMatrix 1 1 0 * V3_geo 0 + g.fRotationMatrix 1 1 1 * V3_geo 1
      + g.fRotationMatrix 1 1 2 * V3_geo 2,
    g.fRotationMatrix 1 2 0 * V3_geo 0 + g.fRotationMatrix 1 2 1 * V3_geo 1
      + g.fRotationMatrix 1 2 2 * V3_geo 2]

/-- The method `G2PGeoBase::Geo2LabNoR`: the origin added to the point. -/
def Geo2LabNoR (g : G2PGeoBase K) (V3_geo : Fin 3 → K) : Fin 3 → K :=
  ![V3_geo 0 + g.fOrigin 0, V3_geo 1 + g.fOrigin 1, V3_geo 2 + g.fOrigin 2]

/-- The method `G2PGeoBase::Geo2Lab`: `Geo2LabNoT` into a temporary, then `Geo2LabNoR`. -/
def Geo2Lab (g : G2PGeoBase K) (V3_geo : Fin 3 → K) : Fin 3 → K :=
  let temp := Geo2LabNoT g V3_geo
  Geo2LabNoR g temp

/-- The method `G2PGeoBase::Geo2LabNoTNoR`: a copy of the point. -/
def Geo2LabNoTNoR (_g : G2PGeoBase K) (V3_geo : Fin 3 → K) : Fin 3 → K :=
  ![V3_geo 0, V3_geo 1, V3_geo 2]

/-- The method `G2PGeoBase::Begin`. `G2PAppBase::Begin` is not part of the sources: it is
taken as an arbitrary step `appBegin` on the object, returning the new object and an `int`. -/
def Begin (sin cos : K → K) (appBegin : G2PGeoBase K → G2PGeoBase K × Int)
    (g : G2PGeoBase K) : G2PGeoBase K × EStatus :=
  let (g0, rc) := appBegin g
  if rc ≠ 0 then
    ({ g0 with fStatus := EStatus.kBEGINERROR }, EStatus.kBEGINERROR)
  else
    let g1 := SetGeoPosition sin cos g0
    let g2 : G2PGeoBase K :=
      if g1.fTranslation then
        if g1.fRotation then
          { g1 with pfLab2Geo := some PfLab2Geo.Lab2Geo, pfGeo2Lab := some PfGeo2Lab.Geo2Lab }
        else
          { g1 with pfLab2Geo := some PfLab2Geo.Lab2GeoNoR,
                    pfGeo2Lab := some PfGeo2Lab.Geo2LabNoR }
      else
        if g1.fRotation then
          { g1 with pfLab2Geo := some PfLab2Geo.Lab2GeoNoT,
                    pfGeo2Lab := some PfGeo2Lab.Geo2LabNoT }
        else
          { g1 with pfLab2Geo := some PfLab2Geo.Lab2GeoNoTNoR,
                    pfGeo2Lab := some PfGeo2Lab.Geo2LabNoTNoR }
    ({ g2 with fStatus := EStatus.kOK }, EStatus.kOK)

/-- The call `(this->*pfLab2Geo)(V3_lab, V3_geo)` of `TouchBoundary`: the `toGeometry` of the
specification. A call through a `NULL` pointer has no result. -/
def toGeometry (g : G2PGeoBase K) (V3_lab : Fin 3 → K) : Option (Fin 3 → K) :=
  match g.pfLab2Geo with
  | none => none
  | some PfLab2Geo.Lab2Geo => some (Lab2Geo g V3_lab)
  | some PfLab2Geo.Lab2GeoNoT => some (Lab2GeoNoT g V3_lab)
  | some PfLab2Geo.Lab2GeoNoR => some (Lab2GeoNoR g V3_lab)
  | some PfLab2Geo.Lab2GeoNoTNoR => some (Lab2GeoNoTNoR g V3_lab)

/-- The call `(this->*pfGeo2Lab)(V3_geo, V3_lab)`: the `toLab` of the specification. -/
def toLab (g : G2PGeoBase K) (V3_geo : Fin 3 → K) : Option (Fin 3 → K) :=
  match g.pfGeo2Lab with
  | none => none
  | some PfGeo2Lab.Geo2Lab => some (Geo2Lab g V3_geo)
  | some PfGeo2Lab.Geo2LabNoT => some (Geo2LabNoT g V3_geo)
  | some PfGeo2Lab.Geo2LabNoR => some (Geo2LabNoR g V3_geo)
  | some PfGeo2Lab.Geo2LabNoTNoR => some (Geo2LabNoTNoR g V3_geo)

/-- The elemental counter-clockwise rotation about the z axis. -/
def Rz (sin cos : K → K) (a : K) : Matrix (Fin 3) (Fin 3) K :=
  !![cos a, -sin a, 0; sin a, cos a, 0; 0, 0, 1]

/-- The elemental counter-clockwise rotation about the x axis. -/
def Rx (sin cos : K → K) (a : K) : Matrix (Fin 3) (Fin 3) K :=
  !![1, 0, 0; 0, cos a, -sin a; 0, sin a, cos a]

/-- An object for the examples: a fresh transform with origin (1, 2, 3) and Euler angles
(1, 2, 3). -/
def exampleGeo (K : Type) [LinearOrderedField K] : G2PGeoBase K :=
  SetEulerAngle 1 2 3 (SetOrigin 1 2 3 (G2PGeoBase.new EStatus.kOK))

/-- An upstream `G2PAppBase::Begin` that succeeds and leaves the object as it is. -/
def appBeginOk (K : Type) : G2PGeoBase K → G2PGeoBase K × Int :=
  fun g => (g, 0)

end GeoBase

/-! ## Doubles with special values -/

/-- A `double` of `G2PMaterial`: an exact number, or one of the IEEE special values. Zero is
unsigned and rounding is not modelled. The operations `+ - * /` below are exact on numbers;
`Dbl.range` and `Dbl.addR`, `Dbl.subR`, `Dbl.mulR`, `Dbl.divR` add overflow and underflow. -/
inductive Dbl (K : Type) where
  | fin (x : K)
  | pinf
  | ninf
  | nan
deriving DecidableEq, Repr

namespace Dbl

variable {K : Type} [LinearOrderedField K]

/-- The infinity with the sign of `x`, and `NaN` for `x = 0`. -/
def signedInf (x : K) : Dbl K :=
  if 0 < x then pinf else if x < 0 then ninf else nan

/-- Unary minus. -/
def neg : Dbl K → Dbl K
  | fin x => fin (-x)
  | pinf => ninf
  | ninf => pinf
  | nan => nan

/-- IEEE addition: `inf + -inf` is `NaN`. -/
def add : Dbl K → Dbl K → Dbl K
  | fin x, fin y => fin (x + y)
  | fin _, pinf => pinf
  | fin _, ninf => ninf
  | pinf, fin _ => pinf
  | pinf, pinf => pinf
  | pinf, ninf => nan
  | ninf, fin _ => ninf
  | ninf, pinf => nan
  | ninf, ninf => ninf
  | nan, _ => nan
  | fin _, nan => nan
  | pinf, nan => nan
  | ninf, nan => nan

/-- IEEE subtraction. -/
def sub (a b : Dbl K) : Dbl K := add a (neg b)

/-- IEEE multiplication: `0 * inf` is `NaN`. The product of two numbers is exact; `Dbl.mulR`
is the product with overflow and underflow. -/
def mul : Dbl K → Dbl K → Dbl K
  | fin x, fin y => fin (x * y)
  | fin x, pinf => signedInf x
  | fin x, ninf => signedInf (-x)
  | pinf, fin y => signedInf y
  | pinf, pinf => pinf
  | pinf, ninf => ninf
  | ninf, fin y => signedInf (-y)
  | ninf, pinf => ninf
  | ninf, ninf => pinf
  | nan, _ => nan
  | fin _, nan => nan
  | pinf, nan => nan
  | ninf, nan => nan

/-- IEEE division: `0 / 0` and `inf / inf` are `NaN`, a non-zero number over zero is the
infinity of the sign of the numerator (the zero divisor being read as `+0`). The quotient of
two numbers is exact; `Dbl.divR` is the quotient with overflow and underflow. -/
def div : Dbl K → Dbl K → Dbl K
  | fin x, fin y => if y = 0 then signedInf x else fin (x / y)
  | fin _, pinf => fin 0
  | fin _, ninf => fin 0
  | pinf, fin y => if 0 ≤ y then pinf else ninf
  | pinf, pinf => nan
  | pinf, ninf => nan
  | ninf, fin y => if 0 ≤ y then ninf else pinf
  | ninf, pinf => nan
  | ninf, ninf => nan
  | nan, _ => nan
  | fin _, nan => nan
  | pinf, nan => nan
  | ninf, nan => nan

instance : Neg (Dbl K) := ⟨neg⟩

instance : Add (Dbl K) := ⟨add⟩

instance : Sub (Dbl K) := ⟨sub⟩

instance : Mul (Dbl K) := ⟨mul⟩

instance : Div (Dbl K) := ⟨div⟩

/-- The comparison `a < b` of C: false as soon as one side is `NaN`. -/
def lt : Dbl K → Dbl K → Bool
  | fin x, fin y => decide (x < y)
  | fin _, pinf => true
  | ninf, fin _ => true
  | ninf, pinf => true
  | fin _, ninf => false
  | pinf, _ => false
  | ninf, ninf => false
  | nan, _ => false
  | fin _, nan => false
  | ninf, nan => false

/-- The comparison `a > b` of C. -/
def gt (a b : Dbl K) : Bool := lt b a

/-- The comparison `a != b` of C: true as soon as one side is `NaN`. -/
def ne : Dbl K → Dbl K → Bool
  | fin x, fin y => decide (x ≠ y)
  | pinf, pinf => false
  | ninf, ninf => false
  | fin _, pinf => true
  | fin _, ninf => true
  | pinf, fin _ => true
  | pinf, ninf => true
  | ninf, fin _ => true
  | ninf, pinf => true
  | nan, _ => true
  | fin _, nan => true
  | pinf, nan => true
  | ninf, nan => true

end Dbl

/-! ## Collaborators of G2PMaterial -/

/-- The functions of `<cmath>` used by `G2PMaterial`. -/
structure Libm (K : Type) where
  sqrt : Dbl K → Dbl K
  log : Dbl K → Dbl K
  pow : Dbl K → Dbl K → Dbl K

/-- Modelled from the spec: the random source `G2PRand` (consumed as an opaque capability,
its code is not part of the sources). `R` is its internal state; each sampler returns the
sample and the next state. -/
structure G2PRand (K : Type) (R : Type) where
  Uniform : R → Dbl K × R
  Gaus : Dbl K → Dbl K → R → Dbl K × R
  Landau : Dbl K → Dbl K → R → Dbl K × R

/-- Modelled from the spec: the configuration modes of `G2PAppBase` (READ, WRITE, TWOWAY). -/
inductive EMode where
  | kREAD
  | kWRITE
  | kTWOWAY
deriving DecidableEq, Repr

/-! ## G2PMaterial -/

section Material

variable {K : Type} [LinearOrderedField K] {R : Type}

/-- The data members of `G2PMaterial` (and `fIsInit`, inherited from `G2PAppBase`). The header
is not part of the sources: `fZ` and `fA` are read as exact numbers, which covers a
declaration as `int` (the configuration table of `Configure` tags them `kINT`) as well as one
as `double`. -/
structure G2PMaterial (K : Type) where
  fName : String
  fZ : K
  fA : K
  fMass : Dbl K
  fDensity : Dbl K
  fX0 : Dbl K
  fIsInit : Bool

/-- The constant `kELECTRONMASS`, in MeV. -/
def kELECTRONMASS : Dbl K := Dbl.fin 0.510998918

/-- The method `G2PMaterial::b`. -/
def b (lm : Libm K) (m : G2PMaterial K) : Dbl K :=
  if m.fZ ≠ 0 then
    let L : Dbl K × Dbl K :=
      if m.fZ ≤ 2 then
        ((Dbl.fin 4.79 - Dbl.fin 5.31) * Dbl.fin (m.fZ - 1) + Dbl.fin 5.31,
         (Dbl.fin 5.621 - Dbl.fin 6.144) * Dbl.fin (m.fZ - 1) + Dbl.fin 6.144)
      else if m.fZ ≤ 3 then
        ((Dbl.fin 4.74 - Dbl.fin 4.79) * Dbl.fin (m.fZ - 2) + Dbl.fin 4.79,
         (Dbl.fin 5.805 - Dbl.fin 5.621) * Dbl.fin (m.fZ - 2) + Dbl.fin 5.621)
      else if m.fZ ≤ 4 then
        ((Dbl.fin 4.71 - Dbl.fin 4.74) * Dbl.fin (m.fZ - 3) + Dbl.fin 4.74,
         (Dbl.fin 5.924 - Dbl.fin 5.805) * Dbl.fin (m.fZ - 3) + Dbl.fin 5.805)
      else
        (lm.log (Dbl.fin 184.15 * lm.pow (Dbl.fin m.fZ) (-Dbl.fin 1.0 / Dbl.fin 3.0)),
         lm.log (Dbl.fin 1194.0 * lm.pow (Dbl.fin m.fZ) (-Dbl.fin 2.0 / Dbl.fin 3.0)))
    let Lrad := L.1
    let Lradp := L.2
    (Dbl.fin 4.0 / Dbl.fin 3.0)
      * (Dbl.fin 1.0 + (Dbl.fin 1.0 / Dbl.fin 9.0) * Dbl.fin (m.fZ + 1)
          / (Lrad * Dbl.fin m.fZ + Lradp))
  else
    Dbl.fin 0

/-- The method `G2PMaterial::Ionization`. The sampler is called only inside the guarded
branch. -/
def Ionization (lm : Libm K) (pRand : G2PRand K R) (m : G2PMaterial K) (E l : Dbl K) (r : R) :
    Dbl K × R :=
  let thickness := l * m.fDensity
  let lK : Dbl K := Dbl.fin 0.307075
  let lbetasq := Dbl.fin 1 - kELECTRONMASS * kELECTRONMASS / (E * E)
  let lxi := lK / Dbl.fin 2 * Dbl.fin m.fZ / Dbl.fin m.fA * thickness / lbetasq
  let lhbarwsq :=
    Dbl.fin 28.816 * Dbl.fin 28.816 * m.fDensity * Dbl.fin m.fZ / Dbl.fin m.fA
      * Dbl.fin 1e-12
  let j : Dbl K := Dbl.fin 0.200
  let Delta_p := lxi * (lm.log (Dbl.fin 2 * kELECTRONMASS * lxi / lhbarwsq) + j)
  let lw := Dbl.fin 4 * lxi
  let result : Dbl K × R := (Dbl.fin 0, r)
  let result :=
    if decide (m.fZ ≠ 0) && decide (m.fA ≠ 0) && Dbl.ne thickness (Dbl.fin 0)
        && Dbl.ne m.fDensity (Dbl.fin 0)
    then pRand.Landau Delta_p lw r
    else result
  let result :=
    if Dbl.gt result.1 (E - kELECTRONMASS) then (E - kELECTRONMASS, result.2) else result
  let result := if Dbl.lt result.1 (Dbl.fin 0) then (Dbl.fin 0, result.2) else result
  result

/-- The method `G2PMaterial::Bremsstrahlung`. The sampler is called only inside the guarded
branch. -/
def Bremsstrahlung (lm : Libm K) (pRand : G2PRand K R) (m : G2PMaterial K) (E l : Dbl K)
    (r : R) : Dbl K × R :=
  let bt := l * m.fDensity / m.fX0 * b lm m
  let result : Dbl K × R := (Dbl.fin 0, r)
  let result :=
    if Dbl.ne bt (Dbl.fin 0) then
      let u := pRand.Uniform r
      (E * lm.pow (u.1 * Dbl.fin 0.999) (Dbl.fin 1 / bt), u.2)
    else result
  let result :=
    if Dbl.gt result.1 (E - kELECTRONMASS) then (E - kELECTRONMASS, result.2) else result
  let result := if Dbl.lt result.1 (Dbl.fin 0) then (Dbl.fin 0, result.2) else result
  result

/-- The method `G2PMaterial::EnergyLoss`. -/
def EnergyLoss (lm : Libm K) (pRand : G2PRand K R) (m : G2PMaterial K) (E l : Dbl K) (r : R) :
    Dbl K × R :=
  let EMeV := E * Dbl.fin 1000
  let result : Dbl K := Dbl.fin 0
  let ion := Ionization lm pRand m EMeV l r
  let result := result + ion.1
  let br := Bremsstrahlung lm pRand m EMeV l ion.2
  let result := result + br.1
  (result / Dbl.fin 1000.0, br.2)

/-- The method `G2PMaterial::MultiScattering`. -/
def MultiScattering (lm : Libm K) (pRand : G2PRand K R) (m : G2PMaterial K) (E l : Dbl K)
    (r : R) : Dbl K × R :=
  let EMeV := E * Dbl.fin 1000
  let thicknessr := l * m.fDensity / m.fX0
  let lPsq := EMeV * EMeV - kELECTRONMASS * kELECTRONMASS
  let bcp := lPsq / EMeV
  let ltheta0 :=
    Dbl.fin 13.6 / bcp * lm.sqrt thicknessr * (Dbl.fin 1 + Dbl.fin 0.038 * lm.log thicknessr)
  if Dbl.ne thicknessr (Dbl.fin 0) then
    pRand.Gaus (Dbl.fin 0) ltheta0 r
  else
    (Dbl.fin 0.0, r)

/-- The two clamping statements that end `Ionization` and `Bremsstrahlung`, as a function of
the bound `E - kELECTRONMASS` and of the result so far. -/
def clampTail (bound : Dbl K) (result : Dbl K × R) : Dbl K × R :=
  let result := if Dbl.gt result.1 bound then (bound, result.2) else result
  let result := if Dbl.lt result.1 (Dbl.fin 0) then (Dbl.fin 0, result.2) else result
  result

/-- The method `G2PMaterial::Configure`. `G2PAppBase::ConfigureFromList` is not part of the
sources: it is taken as an arbitrary step on the object (it receives the five fields `fZ`,
`fA`, `fMass`, `fDensity`, `fX0` by address), returning the new object and an `int`. -/
def Configure (ConfigureFromList : G2PMaterial K → EMode → G2PMaterial K × Int) (mode : EMode)
    (m : G2PMaterial K) : G2PMaterial K × Int :=
  if mode = EMode.kREAD ∨ mode = EMode.kTWOWAY then
    if m.fIsInit then (m, 0)
    else ConfigureFromList { m with fIsInit := true } mode
  else
    ConfigureFromList m mode

/-- A material for the examples: Z = 1, A = 1, density 1, radiation length 1. -/
def exampleMaterial (K : Type) [LinearOrderedField K] : G2PMaterial K :=
  { fName := "example", fZ := 1, fA := 1, fMass := Dbl.fin 0, fDensity := Dbl.fin 1,
    fX0 := Dbl.fin 1, fIsInit := true }

/-- A material with density 0 and radiation length 0 (Z = 1, A = 1). -/
def zeroDensityZeroX0 (K : Type) [LinearOrderedField K] : G2PMaterial K :=
  { fName := "void", fZ := 1, fA := 1, fMass := Dbl.fin 0, fDensity := Dbl.fin 0,
    fX0 := Dbl.fin 0, fIsInit := true }

/-- A material with Z = 0 and A = 0 (density 1, radiation length 1). -/
def zeroZA (K : Type) [LinearOrderedField K] : G2PMaterial K :=
  { fName := "zeroZA", fZ := 0, fA := 0, fMass := Dbl.fin 0, fDensity := Dbl.fin 1,
    fX0 := Dbl.fin 1, fIsInit := true }

/-- A random source whose three samplers return fixed values; its state counts the calls. -/
def constRand (u g lan : Dbl K) : G2PRand K Nat where
  Uniform := fun r => (u, r + 1)
  Gaus := fun _ _ r => (g, r + 1)
  Landau := fun _ _ r => (lan, r + 1)

end Material

/-! ## G2PPhysBase -/

section PhysBase

variable {K : Type} [LinearOrderedField K]

/-- The data members of `G2PPhysBase`. -/
structure G2PPhysBase (K : Type) where
  fZ : Int
  fA : Int
  fTargetMass : K
  fPID : Int
  fPars : List K

/-- The atomic mass unit `kU`, in MeV. -/
def kU : K := 931.49406121

/-- The constructor `G2PPhysBase::G2PPhysBase()`. -/
def G2PPhysBase.new : G2PPhysBase K :=
  { fZ := 1, fA := 1, fTargetMass := 0.0, fPID := 11, fPars := [] }

/-- The method `G2PPhysBase::SetTargetMass`. -/
def SetTargetMass (p : G2PPhysBase K) : G2PPhysBase K :=
  let atomicmass : K := 0.0
  let atomicmass := if p.fZ = 1 then 1.00794 else atomicmass
  let atomicmass := if p.fZ = 2 then 4.002602 else atomicmass
  let atomicmass := if p.fZ = 6 then 12.0107 else atomicmass
  let atomicmass := if p.fZ = 7 then 14.0067 else atomicmass
  let atomicmass := if p.fZ = 8 then 15.9994 else atomicmass
  let atomicmass := if p.fZ = 26 then 55.845 else atomicmass
  let atomicmass := if p.fZ = 29 then 63.546 else atomicmass
  let atomicmass := if p.fZ = 74 then 183.84 else atomicmass
  let atomicmass := if |atomicmass| < 1.0e-8 then (p.fA : K) else atomicmass
  { p with fTargetMass := atomicmass * kU }

/-- The method `G2PPhysBase::SetTarget`. -/
def SetTarget (Z A : Int) (p : G2PPhysBase K) : G2PPhysBase K :=
  let p1 := { p with fZ := Z, fA := A }
  if |p1.fTargetMass| < 1.0e-8 then SetTargetMass p1 else p1

end PhysBase

/-! ## The functions of `<cmath>` on the reals -/

open Classical in
/-- The function `pow` of C (Annex F of the C standard) on the reals. -/
noncomputable def realPow (x y : Dbl ℝ) : Dbl ℝ :=
  if y = Dbl.fin 0 then Dbl.fin 1
  else if x = Dbl.fin 1 then Dbl.fin 1
  else
    match x, y with
    | Dbl.nan, _ => Dbl.nan
    | Dbl.fin _, Dbl.nan => Dbl.nan
    | Dbl.pinf, Dbl.nan => Dbl.nan
    | Dbl.ninf, Dbl.nan => Dbl.nan
    | Dbl.fin a, Dbl.fin c =>
        if 0 < a then Dbl.fin (a ^ c)
        else if a = 0 then (if 0 < c then Dbl.fin 0 else Dbl.pinf)
        else if ∃ n : ℤ, (n : ℝ) = c ∧ Even n then Dbl.fin (|a| ^ c)
        else if ∃ n : ℤ, (n : ℝ) = c then Dbl.fin (-(|a| ^ c))
        else Dbl.nan
    | Dbl.fin a, Dbl.pinf =>
        if |a| < 1 then Dbl.fin 0 else if |a| = 1 then Dbl.fin 1 else Dbl.pinf
    | Dbl.fin a, Dbl.ninf =>
        if |a| < 1 then Dbl.pinf else if |a| = 1 then Dbl.fin 1 else Dbl.fin 0
    | Dbl.pinf, Dbl.fin c => if 0 < c then Dbl.pinf else Dbl.fin 0
    | Dbl.pinf, Dbl.pinf => Dbl.pinf
    | Dbl.pinf, Dbl.ninf => Dbl.fin 0
    | Dbl.ninf, Dbl.fin c =>
        if 0 < c then (if ∃ n : ℤ, (n : ℝ) = c ∧ Odd n then Dbl.ninf else Dbl.pinf)
        else Dbl.fin 0
    | Dbl.ninf, Dbl.pinf => Dbl.pinf
    | Dbl.ninf, Dbl.ninf => Dbl.fin 0

/-- The functions `sqrt`, `log` and `pow` of C on the reals. -/
noncomputable def Libm.real : Libm ℝ where
  sqrt := fun x =>
    match x with
    | Dbl.fin a => if a < 0 then Dbl.nan else Dbl.fin (Real.sqrt a)
    | Dbl.pinf => Dbl.pinf
    | Dbl.ninf => Dbl.nan
    | Dbl.nan => Dbl.nan
  log := fun x =>
    match x with
    | Dbl.fin a => if a < 0 then Dbl.nan else if a = 0 then Dbl.ninf else Dbl.fin (Real.log a)
    | Dbl.pinf => Dbl.pinf
    | Dbl.ninf => Dbl.nan
    | Dbl.nan => Dbl.nan
  pow := realPow

/-! ## More example objects -/

/-- An upstream `G2PAppBase::Begin` that fails with code 1 and leaves the object as it is. -/
def appBeginFail (K : Type) : G2PGeoBase K → G2PGeoBase K × Int :=
  fun g => (g, 1)

/-- A material with radiation length 0 (Z = 1, A = 1, density 1). -/
def zeroX0 (K : Type) [LinearOrderedField K] : G2PMaterial K :=
  { fName := "zeroX0", fZ := 1, fA := 1, fMass := Dbl.fin 0, fDensity := Dbl.fin 1,
    fX0 := Dbl.fin 0, fIsInit := true }

/-! ## The material formulas in the words of the specification -/

section MaterialSpec

variable {K : Type} [LinearOrderedField K] {R : Type}

/-- A value clamped into `[lo, hi]`: a number is moved to the nearest point of the interval,
`+inf` to `hi` and `-inf` to `lo`; `NaN` is left as it is. -/
def clampInto (lo hi : K) : Dbl K → Dbl K
  | Dbl.fin v => Dbl.fin (max lo (min v hi))
  | Dbl.pinf => Dbl.fin hi
  | Dbl.ninf => Dbl.fin lo
  | Dbl.nan => Dbl.nan

/-- The quantity `xi = (0.307075/2)*(Z/A)*(density*l)/beta^2` of the specification, with
`beta^2 = 1 - me^2/E^2`. -/
def xiSpec (m : G2PMaterial K) (E l : Dbl K) : Dbl K :=
  Dbl.fin 0.307075 / Dbl.fin 2 * (Dbl.fin m.fZ / Dbl.fin m.fA) * (m.fDensity * l)
    / (Dbl.fin 1 - kELECTRONMASS * kELECTRONMASS / (E * E))

/-- The squared plasma energy `hw2 = 28.816^2 * density * Z/A * 1e-12` of `Ionization`. -/
def hw2Spec (m : G2PMaterial K) : Dbl K :=
  Dbl.fin 28.816 * Dbl.fin 28.816 * m.fDensity * Dbl.fin m.fZ / Dbl.fin m.fA * Dbl.fin 1e-12

/-- The ionization contribution in the words of the specification: 0 without a sample when
Z = 0 or A = 0 or density = 0 or l = 0, and otherwise the Landau sample with location
`xi*(ln(2*me*xi/hw2) + 0.2)` and width `4*xi`, clamped into `[0, E - me]`. -/
def IonizationSpec (lm : Libm K) (pRand : G2PRand K R) (m : G2PMaterial K) (E l : K) (r : R) :
    Dbl K × R :=
  if m.fZ = 0 ∨ m.fA = 0 ∨ m.fDensity = Dbl.fin 0 ∨ l = 0 then
    (Dbl.fin 0, r)
  else
    let xi := xiSpec m (Dbl.fin E) (Dbl.fin l)
    let s := pRand.Landau
      (xi * (lm.log (Dbl.fin 2 * kELECTRONMASS * xi / hw2Spec m) + Dbl.fin 0.2))
      (Dbl.fin 4 * xi) r
    (clampInto 0 (E - 0.510998918) s.1, s.2)

/-- The value at `x` of the line through the points `(x0, y0)` and `(x1, y1)`. -/
def lineThrough (x0 y0 x1 y1 x : K) : K :=
  y0 + (y1 - y0) / (x1 - x0) * (x - x0)

/-- The piecewise-linear interpolation of `Lrad` through the table points 1: 5.31, 2: 4.79,
3: 4.74, 4: 4.71 (the first segment also serves below 1). -/
def LradInterp (Z : K) : K :=
  if Z ≤ 2 then lineThrough 1 5.31 2 4.79 Z
  else if Z ≤ 3 then lineThrough 2 4.79 3 4.74 Z
  else lineThrough 3 4.74 4 4.71 Z

/-- The piecewise-linear interpolation of `Lradp` through the table points 1: 6.144, 2: 5.621,
3: 5.805, 4: 5.924 (the first segment also serves below 1). -/
def LradpInterp (Z : K) : K :=
  if Z ≤ 2 then lineThrough 1 6.144 2 5.621 Z
  else if Z ≤ 3 then lineThrough 2 5.621 3 5.805 Z
  else lineThrough 3 5.805 4 5.924 Z

/-- The Tsai correction in the words of the specification: `b(0) = 0`, and for `Z != 0`
`b(Z) = (4/3)*(1 + (Z+1)/(9*(Lrad*Z + Lradp)))`, with the interpolated pair for `Z <= 4` and
`(ln(184.15*Z^(-1/3)), ln(1194*Z^(-2/3)))` above. -/
def bSpec (lm : Libm K) (Z : K) : Dbl K :=
  if Z = 0 then
    Dbl.fin 0
  else
    let L : Dbl K × Dbl K :=
      if Z ≤ 4 then (Dbl.fin (LradInterp Z), Dbl.fin (LradpInterp Z))
      else
        (lm.log (Dbl.fin 184.15 * lm.pow (Dbl.fin Z) (Dbl.fin (-(1 / 3)))),
         lm.log (Dbl.fin 1194 * lm.pow (Dbl.fin Z) (Dbl.fin (-(2 / 3)))))
    Dbl.fin 4 / Dbl.fin 3
      * (Dbl.fin 1 + Dbl.fin (Z + 1) / (Dbl.fin 9 * (L.1 * Dbl.fin Z + L.2)))

end MaterialSpec

/-! ## G2PGeoSieve -/

section Sieve

variable {K : Type} [LinearOrderedField K]

end Sieve

/-! ## Doubles with a bounded range -/

namespace Dbl

variable {K : Type} [LinearOrderedField K]

/-- A result brought back into the range of a `double`, as rounding to nearest does: a number
of `2^1024 - 2^970` or more overflows to `+inf`, a number of `-(2^1024 - 2^970)` or less to
`-inf`, a number of magnitude `2^-1075` or less underflows to 0, and every other number is kept
as it is (rounding inside the range is not modelled). The special values stay as they are. -/
def range : Dbl K → Dbl K
  | fin z =>
    if 2 ^ 1024 - 2 ^ 970 ≤ z then pinf
    else if z ≤ -(2 ^ 1024 - 2 ^ 970) then ninf
    else if -(1 / 2 ^ 1075) ≤ z ∧ z ≤ 1 / 2 ^ 1075 then fin 0
    else fin z
  | pinf => pinf
  | ninf => ninf
  | nan => nan

/-- The sum `a + b` of two doubles, with overflow and underflow. -/
def addR (a b : Dbl K) : Dbl K := range (a + b)

/-- The difference `a - b` of two doubles, with overflow and underflow. -/
def subR (a b : Dbl K) : Dbl K := range (a - b)

/-- The product `a * b` of two doubles, with overflow and underflow. -/
def mulR (a b : Dbl K) : Dbl K := range (a * b)

/-- The quotient `a / b` of two doubles, with overflow and underflow. -/
def divR (a b : Dbl K) : Dbl K := range (a / b)

end Dbl

/-! ## G2PMaterial over doubles with a bounded range

The methods of `G2PMaterial` once more, statement by statement, with every sum, difference,
product and quotient brought back into the range of a `double`: a product such as
`l*fDensity` can underflow to 0 and a quotient such as `l*fDensity/fX0` can overflow to an
infinity, which the guards `thickness != 0` and `bt != 0` then see. -/

namespace Ranged

variable {K : Type} [LinearOrderedField K] {R : Type}

/-- The method `G2PMaterial::b`. -/
def b (lm : Libm K) (m : G2PMaterial K) : Dbl K :=
  if m.fZ ≠ 0 then
    let L : Dbl K × Dbl K :=
      if m.fZ ≤ 2 then
        ((((Dbl.fin 4.79).subR (Dbl.fin 5.31)).mulR (Dbl.fin (m.fZ - 1))).addR (Dbl.fin 5.31),
         (((Dbl.fin 5.621).subR (Dbl.fin 6.144)).mulR (Dbl.fin (m.fZ - 1))).addR
           (Dbl.fin 6.144))
      else if m.fZ ≤ 3 then
        ((((Dbl.fin 4.74).subR (Dbl.fin 4.79)).mulR (Dbl.fin (m.fZ - 2))).addR (Dbl.fin 4.79),
         (((Dbl.fin 5.805).subR (Dbl.fin 5.621)).mulR (Dbl.fin (m.fZ - 2))).addR
           (Dbl.fin 5.621))
      else if m.fZ ≤ 4 then
        ((((Dbl.fin 4.71).subR (Dbl.fin 4.74)).mulR (Dbl.fin (m.fZ - 3))).addR (Dbl.fin 4.74),
         (((Dbl.fin 5.924).subR (Dbl.fin 5.805)).mulR (Dbl.fin (m.fZ - 3))).addR
           (Dbl.fin 5.805))
      else
        (lm.log ((Dbl.fin 184.15).mulR
            (lm.pow (Dbl.fin m.fZ) ((-Dbl.fin 1.0).divR (Dbl.fin 3.0)))),
         lm.log ((Dbl.fin 1194.0).mulR
            (lm.pow (Dbl.fin m.fZ) ((-Dbl.fin 2.0).divR (Dbl.fin 3.0)))))
    let Lrad := L.1
    let Lradp := L.2
    ((Dbl.fin 4.0).divR (Dbl.fin 3.0)).mulR
      ((Dbl.fin 1.0).addR
        ((((Dbl.fin 1.0).divR (Dbl.fin 9.0)).mulR (Dbl.fin (m.fZ + 1))).divR
          ((Lrad.mulR (Dbl.fin m.fZ)).addR Lradp)))
  else
    Dbl.fin 0

/-- The method `G2PMaterial::Ionization`. The sampler is called only inside the guarded
branch. -/
def Ionization (lm : Libm K) (pRand : G2PRand K R) (m : G2PMaterial K) (E l : Dbl K) (r : R) :
    Dbl K × R :=
  let thickness := l.mulR m.fDensity
  let lK : Dbl K := Dbl.fin 0.307075
  let lbetasq := (Dbl.fin 1).subR ((kELECTRONMASS.mulR kELECTRONMASS).divR (E.mulR E))
  let lxi :=
    (((((lK.divR (Dbl.fin 2)).mulR (Dbl.fin m.fZ)).divR (Dbl.fin m.fA)).mulR thickness).divR
      lbetasq)
  let lhbarwsq :=
    ((((((Dbl.fin 28.816).mulR (Dbl.fin 28.816)).mulR m.fDensity).mulR (Dbl.fin m.fZ)).divR
      (Dbl.fin m.fA)).mulR (Dbl.fin 1e-12))
  let j : Dbl K := Dbl.fin 0.200
  let Delta_p :=
    lxi.mulR ((lm.log ((((Dbl.fin 2).mulR kELECTRONMASS).mulR lxi).divR lhbarwsq)).addR j)
  let lw := (Dbl.fin 4).mulR lxi
  let result : Dbl K × R := (Dbl.fin 0, r)
  let result :=
    if decide (m.fZ ≠ 0) && decide (m.fA ≠ 0) && Dbl.ne thickness (Dbl.fin 0)
        && Dbl.ne m.fDensity (Dbl.fin 0)
    then pRand.Landau Delta_p lw r
    else result
  let result :=
    if Dbl.gt result.1 (E.subR kELECTRONMASS) then (E.subR kELECTRONMASS, result.2)
    else result
  let result := if Dbl.lt result.1 (Dbl.fin 0) then (Dbl.fin 0, result.2) else result
  result

/-- The method `G2PMaterial::Bremsstrahlung`. The sampler is called only inside the guarded
branch. -/
def Bremsstrahlung (lm : Libm K) (pRand : G2PRand K R) (m : G2PMaterial K) (E l : Dbl K)
    (r : R) : Dbl K × R :=
  let bt := ((l.mulR m.fDensity).divR m.fX0).mulR (b lm m)
  let result : Dbl K × R := (Dbl.fin 0, r)
  let result :=
    if Dbl.ne bt (Dbl.fin 0) then
      let u := pRand.Uniform r
      (E.mulR (lm.pow (u.1.mulR (Dbl.fin 0.999)) ((Dbl.fin 1).divR bt)), u.2)
    else result
  let result :=
    if Dbl.gt result.1 (E.subR kELECTRONMASS) then (E.subR kELECTRONMASS, result.2)
    else result
  let result := if Dbl.lt result.1 (Dbl.fin 0) then (Dbl.fin 0, result.2) else result
  result

/-- The method `G2PMaterial::EnergyLoss`. -/
def EnergyLoss (lm : Libm K) (pRand : G2PRand K R) (m : G2PMaterial K) (E l : Dbl K) (r : R) :
    Dbl K × R :=
  let EMeV := E.mulR (Dbl.fin 1000)
  let result : Dbl K := Dbl.fin 0
  let ion := Ionization lm pRand m EMeV l r
  let result := result.addR ion.1
  let br := Bremsstrahlung lm pRand m EMeV l ion.2
  let result := result.addR br.1
  (result.divR (Dbl.fin 1000.0), br.2)

/-- The method `G2PMaterial::MultiScattering`. -/
def MultiScattering (lm : Libm K) (pRand : G2PRand K R) (m : G2PMaterial K) (E l : Dbl K)
    (r : R) : Dbl K × R :=
  let EMeV := E.mulR (Dbl.fin 1000)
  let thicknessr := (l.mulR m.fDensity).divR m.fX0
  let lPsq := (EMeV.mulR EMeV).subR (kELECTRONMASS.mulR kELECTRONMASS)
  let bcp := lPsq.divR EMeV
  let ltheta0 :=
    (((Dbl.fin 13.6).divR bcp).mulR (lm.sqrt thicknessr)).mulR
      ((Dbl.fin 1).addR ((Dbl.fin 0.038).mulR (lm.log thicknessr)))
  if Dbl.ne thicknessr (Dbl.fin 0) then
    pRand.Gaus (Dbl.fin 0) ltheta0 r
  else
    (Dbl.fin 0.0, r)

/-- The quantity `xi = 0.307075/2*Z/A*(l*density)/beta^2` of the specification, with
`beta^2 = 1 - me^2/E^2`, evaluated from left to right. -/
def xiSpec (m : G2PMaterial K) (E l : Dbl K) : Dbl K :=
  (((((Dbl.fin 0.307075).divR (Dbl.fin 2)).mulR (Dbl.fin m.fZ)).divR (Dbl.fin m.fA)).mulR
      (l.mulR m.fDensity)).divR
    ((Dbl.fin 1).subR ((kELECTRONMASS.mulR kELECTRONMASS).divR (E.mulR E)))

/-- The squared plasma energy `hw2 = 28.816^2 * density * Z/A * 1e-12` of `Ionization`,
evaluated from left to right. -/
def hw2Spec (m : G2PMaterial K) : Dbl K :=
  (((((Dbl.fin 28.816).mulR (Dbl.fin 28.816)).mulR m.fDensity).mulR (Dbl.fin m.fZ)).divR
    (Dbl.fin m.fA)).mulR (Dbl.fin 1e-12)

/-- The ionization contribution in the words of the specification, with the thickness read as
the product `l*density` that the code computes: 0 without a sample when Z = 0 or A = 0 or
density = 0 or that product is 0, and otherwise the Landau sample with location
`xi*(ln(2*me*xi/hw2) + 0.2)` and width `4*xi`, clamped into `[0, h]`, where `h` stands for
the difference `E - me`. -/
def IonizationSpec (lm : Libm K) (pRand : G2PRand K R) (m : G2PMaterial K) (E l h : K)
    (r : R) : Dbl K × R :=
  if m.fZ = 0 ∨ m.fA = 0 ∨ m.fDensity = Dbl.fin 0
      ∨ (Dbl.fin l).mulR m.fDensity = Dbl.fin 0 then
    (Dbl.fin 0, r)
  else
    let xi := xiSpec m (Dbl.fin E) (Dbl.fin l)
    let s := pRand.Landau
      (xi.mulR ((lm.log ((((Dbl.fin 2).mulR kELECTRONMASS).mulR xi).divR (hw2Spec m))).addR
        (Dbl.fin 0.2)))
      ((Dbl.fin 4).mulR xi) r
    (clampInto 0 h s.1, s.2)

end Ranged

/-! ## Example materials for the degenerate cases -/

/-- A material with A = 0 (Z = 1, density 1, radiation length 1). -/
def zeroA (K : Type) [LinearOrderedField K] : G2PMaterial K :=
  { fName := "zeroA", fZ := 1, fA := 0, fMass := Dbl.fin 0, fDensity := Dbl.fin 1,
    fX0 := Dbl.fin 1, fIsInit := true }

/-- A material with Z = 0 and radiation length 0 (A = 1, density 1). -/
def zeroZzeroX0 (K : Type) [LinearOrderedField K] : G2PMaterial K :=
  { fName := "zeroZzeroX0", fZ := 0, fA := 1, fMass := Dbl.fin 0, fDensity := Dbl.fin 1,
    fX0 := Dbl.fin 0, fIsInit := true }

/-- A material with the tiny density 1e-200 (Z = 1, A = 1, radiation length 1). -/
def tinyDensity (K : Type) [LinearOrderedField K] : G2PMaterial K :=
  { fName := "tinyDensity", fZ := 1, fA := 1, fMass := Dbl.fin 0, fDensity := Dbl.fin 1e-200,
    fX0 := Dbl.fin 1, fIsInit := true }

/-! ## Theorems: G2PGeoBase -/

theorem mat3_ext {K : Type} {A B : Matrix (Fin 3) (Fin 3) K}
    (h00 : A 0 0 = B 0 0) (h01 : A 0 1 = B 0 1) (h02 : A 0 2 = B 0 2)
    (h10 : A 1 0 = B 1 0) (h11 : A 1 1 = B 1 1) (h12 : A 1 2 = B 1 2)
    (h20 : A 2 0 = B 2 0) (h21 : A 2 1 = B 2 1) (h22 : A 2 2 = B 2 2) : A = B := by
  ext i j
  fin_cases i <;> fin_cases j <;> assumption

theorem Lab2GeoNoT_eq_mulVec {K : Type} [LinearOrderedField K] (g : G2PGeoBase K)
    (v : Fin 3 → K) : Lab2GeoNoT g v = Matrix.mulVec (g.fRotationMatrix 0) v := by
  funext i
  fin_cases i <;> simp [Lab2GeoNoT, Matrix.mulVec, Matrix.dotProduct, Fin.sum_univ_three]

theorem Geo2LabNoT_eq_mulVec {K : Type} [LinearOrderedField K] (g : G2PGeoBase K)
    (v : Fin 3 → K) : Geo2LabNoT g v = Matrix.mulVec (g.fRotationMatrix 1) v := by
  funext i
  fin_cases i <;> simp [Geo2LabNoT, Matrix.mulVec, Matrix.dotProduct, Fin.sum_univ_three]

theorem Lab2GeoNoTNoR_eq {K : Type} (g : G2PGeoBase K) (v : Fin 3 → K) :
    Lab2GeoNoTNoR g v = v := by
  funext i
  fin_cases i <;> simp [Lab2GeoNoTNoR]

theorem Geo2LabNoTNoR_eq {K : Type} (g : G2PGeoBase K) (v : Fin 3 → K) :
    Geo2LabNoTNoR g v = v := by
  funext i
  fin_cases i <;> simp [Geo2LabNoTNoR]

theorem Lab2GeoNoR_eq {K : Type} [LinearOrderedField K] (g : G2PGeoBase K) (v : Fin 3 → K) :
    Lab2GeoNoR g v = v - g.fOrigin := by
  funext i
  fin_cases i <;> simp [Lab2GeoNoR]

theorem Geo2LabNoR_eq {K : Type} [LinearOrderedField K] (g : G2PGeoBase K) (v : Fin 3 → K) :
    Geo2LabNoR g v = v + g.fOrigin := by
  funext i
  fin_cases i <;> simp [Geo2LabNoR]

theorem not_all_small_iff {K : Type} [LinearOrderedField K] (v : Fin 3 → K) :
    ¬ (|v 0| < 1e-5 ∧ |v 1| < 1e-5 ∧ |v 2| < 1e-5) ↔ ∃ i, 1e-5 ≤ |v i| := by
  constructor
  · intro h
    by_contra hc
    push_neg at hc
    exact h ⟨hc 0, hc 1, hc 2⟩
  · rintro ⟨i, hi⟩ ⟨h0, h1, h2⟩
    fin_cases i
    · exact absurd h0 (not_lt.mpr hi)
    · exact absurd h1 (not_lt.mpr hi)
    · exact absurd h2 (not_lt.mpr hi)

/-- Whether `SetGeoPosition` finds all three Euler angles below the threshold. -/
theorem SetGeoPosition_fRotation {K : Type} [LinearOrderedField K] (sin cos : K → K)
    (g : G2PGeoBase K) :
    (SetGeoPosition sin cos g).fRotation = true ↔
      ¬ (|g.fEulerAngle 0| < 1e-5 ∧ |g.fEulerAngle 1| < 1e-5 ∧ |g.fEulerAngle 2| < 1e-5) := by
  unfold SetGeoPosition
  by_cases hT : |g.fOrigin 0| < 1e-5 ∧ |g.fOrigin 1| < 1e-5 ∧ |g.fOrigin 2| < 1e-5 <;>
  by_cases hR : |g.fEulerAngle 0| < 1e-5 ∧ |g.fEulerAngle 1| < 1e-5 ∧ |g.fEulerAngle 2| < 1e-5 <;>
  simp [hT, hR]

theorem SetGeoPosition_fTranslation {K : Type} [LinearOrderedField K] (sin cos : K → K)
    (g : G2PGeoBase K) :
    (SetGeoPosition sin cos g).fTranslation = true ↔
      ¬ (|g.fOrigin 0| < 1e-5 ∧ |g.fOrigin 1| < 1e-5 ∧ |g.fOrigin 2| < 1e-5) := by
  unfold SetGeoPosition
  by_cases hT : |g.fOrigin 0| < 1e-5 ∧ |g.fOrigin 1| < 1e-5 ∧ |g.fOrigin 2| < 1e-5 <;>
  by_cases hR : |g.fEulerAngle 0| < 1e-5 ∧ |g.fEulerAngle 1| < 1e-5 ∧ |g.fEulerAngle 2| < 1e-5 <;>
  simp [hT, hR]

theorem SetGeoPosition_fOrigin {K : Type} [LinearOrderedField K] (sin cos : K → K)
    (g : G2PGeoBase K) : (SetGeoPosition sin cos g).fOrigin = g.fOrigin := by
  unfold SetGeoPosition
  by_cases hT : |g.fOrigin 0| < 1e-5 ∧ |g.fOrigin 1| < 1e-5 ∧ |g.fOrigin 2| < 1e-5 <;>
  by_cases hR : |g.fEulerAngle 0| < 1e-5 ∧ |g.fEulerAngle 1| < 1e-5 ∧ |g.fEulerAngle 2| < 1e-5 <;>
  simp [hT, hR]

theorem SetGeoPosition_fEulerAngle {K : Type} [LinearOrderedField K] (sin cos : K → K)
    (g : G2PGeoBase K) : (SetGeoPosition sin cos g).fEulerAngle = g.fEulerAngle := by
  unfold SetGeoPosition
  by_cases hT : |g.fOrigin 0| < 1e-5 ∧ |g.fOrigin 1| < 1e-5 ∧ |g.fOrigin 2| < 1e-5 <;>
  by_cases hR : |g.fEulerAngle 0| < 1e-5 ∧ |g.fEulerAngle 1| < 1e-5 ∧ |g.fEulerAngle 2| < 1e-5 <;>
  simp [hT, hR]

/-- With all three angles below the threshold the matrices are left as they were. -/
theorem SetGeoPosition_matrix_small {K : Type} [LinearOrderedField K] (sin cos : K → K)
    (g : G2PGeoBase K)
    (hR : |g.fEulerAngle 0| < 1e-5 ∧ |g.fEulerAngle 1| < 1e-5 ∧ |g.fEulerAngle 2| < 1e-5) :
    (SetGeoPosition sin cos g).fRotationMatrix = g.fRotationMatrix := by
  unfold SetGeoPosition
  by_cases hT : |g.fOrigin 0| < 1e-5 ∧ |g.fOrigin 1| < 1e-5 ∧ |g.fOrigin 2| < 1e-5 <;>
  simp [hT, hR]

/-- The eighteen assignments of `SetGeoPosition`, as two matrices. -/
theorem setEntry_all {K : Type} [LinearOrderedField K] (M : Fin 2 → Matrix (Fin 3) (Fin 3) K)
    (a00 a10 a20 a01 a11 a21 a02 a12 a22 b00 b01 b02 b10 b11 b12 b20 b21 b22 : K) :
    setEntry (setEntry (setEntry (setEntry (setEntry (setEntry (setEntry (setEntry (setEntry
      (setEntry (setEntry (setEntry (setEntry (setEntry (setEntry (setEntry (setEntry (setEntry M
        0 0 0 a00) 0 1 0 a10) 0 2 0 a20) 0 0 1 a01) 0 1 1 a11) 0 2 1 a21) 0 0 2 a02) 0 1 2 a12)
        0 2 2 a22) 1 0 0 b00) 1 0 1 b01) 1 0 2 b02) 1 1 0 b10) 1 1 1 b11) 1 1 2 b12) 1 2 0 b20)
        1 2 1 b21) 1 2 2 b22
      = ![!![a00, a01, a02; a10, a11, a12; a20, a21, a22],
          !![b00, b01, b02; b10, b11, b12; b20, b21, b22]] := by
  funext k i j
  fin_cases k <;> fin_cases i <;> fin_cases j <;> simp [setEntry]

/-- The matrices written by the rotating branch of `SetGeoPosition`. -/
theorem SetGeoPosition_matrix_entries {K : Type} [LinearOrderedField K] (sin cos : K → K)
    (g : G2PGeoBase K)
    (hR : ¬ (|g.fEulerAngle 0| < 1e-5 ∧ |g.fEulerAngle 1| < 1e-5 ∧ |g.fEulerAngle 2| < 1e-5)) :
    (SetGeoPosition sin cos g).fRotationMatrix =
      ![!![cos (g.fEulerAngle 0) * cos (g.fEulerAngle 2)
              - cos (g.fEulerAngle 1) * sin (g.fEulerAngle 0) * sin (g.fEulerAngle 2),
           sin (g.fEulerAngle 0) * cos (g.fEulerAngle 2)
              + cos (g.fEulerAngle 1) * cos (g.fEulerAngle 0) * sin (g.fEulerAngle 2),
           sin (g.fEulerAngle 1) * sin (g.fEulerAngle 2);
           -cos (g.fEulerAngle 0) * sin (g.fEulerAngle 2)
              - cos (g.fEulerAngle 1) * sin (g.fEulerAngle 0) * cos (g.fEulerAngle 2),
           -sin (g.fEulerAngle 0) * sin (g.fEulerAngle 2)
              + cos (g.fEulerAngle 1) * cos (g.fEulerAngle 0) * cos (g.fEulerAngle 2),
           sin (g.fEulerAngle 1) * cos (g.fEulerAngle 2);
           sin (g.fEulerAngle 1) * sin (g.fEulerAngle 0),
           -sin (g.fEulerAngle 1) * cos (g.fEulerAngle 0),
           cos (g.fEulerAngle 1)],
        !![cos (g.fEulerAngle 0) * cos (g.fEulerAngle 2)
              - cos (g.fEulerAngle 1) * sin (g.fEulerAngle 0) * sin (g.fEulerAngle 2),
           -cos (g.fEulerAngle 0) * sin (g.fEulerAngle 2)
              - cos (g.fEulerAngle 1) * cos (g.fEulerAngle 2) * sin (g.fEulerAngle 0),
           sin (g.fEulerAngle 0) * sin (g.fEulerAngle 1);
           cos (g.fEulerAngle 2) * sin (g.fEulerAngle 0)
              + cos (g.fEulerAngle 0) * cos (g.fEulerAngle 1) * sin (g.fEulerAngle 2),
           cos (g.fEulerAngle 0) * cos (g.fEulerAngle 1) * cos (g.fEulerAngle 2)
              - sin (g.fEulerAngle 0) * sin (g.fEulerAngle 2),
           -cos (g.fEulerAngle 0) * sin (g.fEulerAngle 1);
           sin (g.fEulerAngle 1) * sin (g.fEulerAngle 2),
           cos (g.fEulerAngle 2) * sin (g.fEulerAngle 1),
           cos (g.fEulerAngle 1)]] := by
  rw [← setEntry_all g.fRotationMatrix]
  unfold SetGeoPosition
  by_cases hT : |g.fOrigin 0| < 1e-5 ∧ |g.fOrigin 1| < 1e-5 ∧ |g.fOrigin 2| < 1e-5
  · rw [if_pos hT]
    exact (if_neg hR).symm ▸ rfl
  · rw [if_neg hT]
    exact (if_neg hR).symm ▸ rfl

/-- In the rotating branch the stored inverse matrix is the product of the three elemental
rotations and the forward matrix is its transpose. -/
theorem SetGeoPosition_matrix_rot {K : Type} [LinearOrderedField K] (sin cos : K → K)
    (g : G2PGeoBase K)
    (hR : ¬ (|g.fEulerAngle 0| < 1e-5 ∧ |g.fEulerAngle 1| < 1e-5 ∧ |g.fEulerAngle 2| < 1e-5)) :
    (SetGeoPosition sin cos g).fRotationMatrix 1
        = Rz sin cos (g.fEulerAngle 0) * Rx sin cos (g.fEulerAngle 1)
            * Rz sin cos (g.fEulerAngle 2) ∧
      (SetGeoPosition sin cos g).fRotationMatrix 0
        = (Rz sin cos (g.fEulerAngle 0) * Rx sin cos (g.fEulerAngle 1)
            * Rz sin cos (g.fEulerAngle 2)).transpose := by
  rw [SetGeoPosition_matrix_entries sin cos g hR]
  constructor
  · apply mat3_ext <;>
      simp only [Rz, Rx, Matrix.mul_apply, Fin.sum_univ_three, Matrix.of_apply,
        Matrix.cons_val_zero, Matrix.cons_val_one, Matrix.cons_val_two, Matrix.head_cons,
        Matrix.tail_cons] <;> ring
  · apply mat3_ext <;>
      simp only [Rz, Rx, Matrix.mul_apply, Fin.sum_univ_three, Matrix.of_apply,
        Matrix.transpose_apply,
        Matrix.cons_val_zero, Matrix.cons_val_one, Matrix.cons_val_two, Matrix.head_cons,
        Matrix.tail_cons] <;> ring

theorem Rz_mul_transpose (a : ℝ) :
    Rz Real.sin Real.cos a * (Rz Real.sin Real.cos a).transpose = 1 := by
  apply mat3_ext <;>
    simp only [Rz, Matrix.mul_apply, Fin.sum_univ_three, Matrix.transpose_apply, Matrix.of_apply,
      Matrix.cons_val_zero, Matrix.cons_val_one, Matrix.cons_val_two, Matrix.head_cons,
      Matrix.tail_cons, Matrix.one_apply_eq, Matrix.one_apply_ne, ne_eq, Fin.reduceEq,
      not_false_eq_true] <;>
    nlinarith [Real.sin_sq_add_cos_sq a]

theorem Rz_transpose_mul (a : ℝ) :
    (Rz Real.sin Real.cos a).transpose * Rz Real.sin Real.cos a = 1 := by
  apply mat3_ext <;>
    simp only [Rz, Matrix.mul_apply, Fin.sum_univ_three, Matrix.transpose_apply, Matrix.of_apply,
      Matrix.cons_val_zero, Matrix.cons_val_one, Matrix.cons_val_two, Matrix.head_cons,
      Matrix.tail_cons, Matrix.one_apply_eq, Matrix.one_apply_ne, ne_eq, Fin.reduceEq,
      not_false_eq_true] <;>
    nlinarith [Real.sin_sq_add_cos_sq a]

theorem Rx_mul_transpose (a : ℝ) :
    Rx Real.sin Real.cos a * (Rx Real.sin Real.cos a).transpose = 1 := by
  apply mat3_ext <;>
    simp only [Rx, Matrix.mul_apply, Fin.sum_univ_three, Matrix.transpose_apply, Matrix.of_apply,
      Matrix.cons_val_zero, Matrix.cons_val_one, Matrix.cons_val_two, Matrix.head_cons,
      Matrix.tail_cons, Matrix.one_apply_eq, Matrix.one_apply_ne, ne_eq, Fin.reduceEq,
      not_false_eq_true] <;>
    nlinarith [Real.sin_sq_add_cos_sq a]

theorem Rx_transpose_mul (a : ℝ) :
    (Rx Real.sin Real.cos a).transpose * Rx Real.sin Real.cos a = 1 := by
  apply mat3_ext <;>
    simp only [Rx, Matrix.mul_apply, Fin.sum_univ_three, Matrix.transpose_apply, Matrix.of_apply,
      Matrix.cons_val_zero, Matrix.cons_val_one, Matrix.cons_val_two, Matrix.head_cons,
      Matrix.tail_cons, Matrix.one_apply_eq, Matrix.one_apply_ne, ne_eq, Fin.reduceEq,
      not_false_eq_true] <;>
    nlinarith [Real.sin_sq_add_cos_sq a]

/-- The Euler product is orthogonal. -/
theorem euler_mul_transpose (a b c : ℝ) :
    (Rz Real.sin Real.cos a * Rx Real.sin Real.cos b * Rz Real.sin Real.cos c)
      * (Rz Real.sin Real.cos a * Rx Real.sin Real.cos b * Rz Real.sin Real.cos c).transpose
      = 1 := by
  rw [Matrix.transpose_mul, Matrix.transpose_mul]
  calc Rz Real.sin Real.cos a * Rx Real.sin Real.cos b * Rz Real.sin Real.cos c
          * ((Rz Real.sin Real.cos c).transpose
            * ((Rx Real.sin Real.cos b).transpose * (Rz Real.sin Real.cos a).transpose))
      = Rz Real.sin Real.cos a * (Rx Real.sin Real.cos b
          * (Rz Real.sin Real.cos c * (Rz Real.sin Real.cos c).transpose)
          * (Rx Real.sin Real.cos b).transpose) * (Rz Real.sin Real.cos a).transpose := by
        simp only [Matrix.mul_assoc]
    _ = 1 := by
        rw [Rz_mul_transpose, Matrix.mul_one, Rx_mul_transpose, Matrix.mul_one,
          Rz_mul_transpose]

theorem euler_transpose_mul (a b c : ℝ) :
    (Rz Real.sin Real.cos a * Rx Real.sin Real.cos b * Rz Real.sin Real.cos c).transpose
      * (Rz Real.sin Real.cos a * Rx Real.sin Real.cos b * Rz Real.sin Real.cos c)
      = 1 := by
  rw [Matrix.transpose_mul, Matrix.transpose_mul]
  calc (Rz Real.sin Real.cos c).transpose
          * ((Rx Real.sin Real.cos b).transpose * (Rz Real.sin Real.cos a).transpose)
          * (Rz Real.sin Real.cos a * Rx Real.sin Real.cos b * Rz Real.sin Real.cos c)
      = (Rz Real.sin Real.cos c).transpose * ((Rx Real.sin Real.cos b).transpose
          * ((Rz Real.sin Real.cos a).transpose * Rz Real.sin Real.cos a)
          * Rx Real.sin Real.cos b) * Rz Real.sin Real.cos c := by
        simp only [Matrix.mul_assoc]
    _ = 1 := by
        rw [Rz_transpose_mul, Matrix.mul_one, Rx_transpose_mul, Matrix.mul_one,
          Rz_transpose_mul]

theorem Begin_status {K : Type} [LinearOrderedField K] (sin cos : K → K)
    (appBegin : G2PGeoBase K → G2PGeoBase K × Int) (g : G2PGeoBase K) :
    (Begin sin cos appBegin g).2 = EStatus.kOK ↔ (appBegin g).2 = 0 := by
  unfold Begin
  rcases h : appBegin g with ⟨g0, rc⟩
  by_cases hrc : rc = 0 <;> simp [hrc]

/-- The state left by a successful `Begin`: the flags, origin, angles and matrices are those
left by `SetGeoPosition`, and the two pointers are selected from the flags. -/
theorem Begin_state {K : Type} [LinearOrderedField K] (sin cos : K → K)
    (appBegin : G2PGeoBase K → G2PGeoBase K × Int)
    (g : G2PGeoBase K) (h : (Begin sin cos appBegin g).2 = EStatus.kOK) :
    (Begin sin cos appBegin g).1.fOrigin = (appBegin g).1.fOrigin ∧
    (Begin sin cos appBegin g).1.fEulerAngle = (appBegin g).1.fEulerAngle ∧
    (Begin sin cos appBegin g).1.fRotationMatrix
      = (SetGeoPosition sin cos (appBegin g).1).fRotationMatrix ∧
    (Begin sin cos appBegin g).1.fTranslation
      = (SetGeoPosition sin cos (appBegin g).1).fTranslation ∧
    (Begin sin cos appBegin g).1.fRotation
      = (SetGeoPosition sin cos (appBegin g).1).fRotation ∧
    (Begin sin cos appBegin g).1.pfLab2Geo
      = some (if (SetGeoPosition sin cos (appBegin g).1).fTranslation then
          (if (SetGeoPosition sin cos (appBegin g).1).fRotation then PfLab2Geo.Lab2Geo
            else PfLab2Geo.Lab2GeoNoR)
        else
          (if (SetGeoPosition sin cos (appBegin g).1).fRotation then PfLab2Geo.Lab2GeoNoT
            else PfLab2Geo.Lab2GeoNoTNoR)) ∧
    (Begin sin cos appBegin g).1.pfGeo2Lab
      = some (if (SetGeoPosition sin cos (appBegin g).1).fTranslation then
          (if (SetGeoPosition sin cos (appBegin g).1).fRotation then PfGeo2Lab.Geo2Lab
            else PfGeo2Lab.Geo2LabNoR)
        else
          (if (SetGeoPosition sin cos (appBegin g).1).fRotation then PfGeo2Lab.Geo2LabNoT
            else PfGeo2Lab.Geo2LabNoTNoR)) := by
  have hrc := (Begin_status sin cos appBegin g).1 h
  unfold Begin
  rcases h0 : appBegin g with ⟨g0, rc⟩
  rw [h0] at hrc
  simp only at hrc
  subst hrc
  simp only [ne_eq, not_true_eq_false, if_false]
  have hO := SetGeoPosition_fOrigin sin cos g0
  have hE := SetGeoPosition_fEulerAngle sin cos g0
  cases hT : (SetGeoPosition sin cos g0).fTranslation <;>
    cases hR : (SetGeoPosition sin cos g0).fRotation <;>
    simp [hT, hR, hO, hE]

/-- After a successful `Begin` with rotation active the two stored matrices are inverse to
each other (real arithmetic). -/
theorem Begin_orthogonal (appBegin : G2PGeoBase ℝ → G2PGeoBase ℝ × Int) (g : G2PGeoBase ℝ)
    (h : (Begin Real.sin Real.cos appBegin g).2 = EStatus.kOK)
    (hR : (Begin Real.sin Real.cos appBegin g).1.fRotation = true) :
    (Begin Real.sin Real.cos appBegin g).1.fRotationMatrix 1
        * (Begin Real.sin Real.cos appBegin g).1.fRotationMatrix 0 = 1 ∧
      (Begin Real.sin Real.cos appBegin g).1.fRotationMatrix 0
        * (Begin Real.sin Real.cos appBegin g).1.fRotationMatrix 1 = 1 := by
  obtain ⟨-, -, hM, -, hRot, -, -⟩ := Begin_state Real.sin Real.cos appBegin g h
  rw [hRot] at hR
  have hang := (SetGeoPosition_fRotation Real.sin Real.cos (appBegin g).1).1 hR
  obtain ⟨h1, h0⟩ := SetGeoPosition_matrix_rot Real.sin Real.cos (appBegin g).1 hang
  rw [hM, h1, h0]
  exact ⟨euler_mul_transpose _ _ _, euler_transpose_mul _ _ _⟩

/-- The example object passes `Begin`, with translation and rotation both active. -/
theorem Begin_example :
    (Begin Real.sin Real.cos (appBeginOk ℝ) (exampleGeo ℝ)).2 = EStatus.kOK ∧
    (Begin Real.sin Real.cos (appBeginOk ℝ) (exampleGeo ℝ)).1.fTranslation = true ∧
    (Begin Real.sin Real.cos (appBeginOk ℝ) (exampleGeo ℝ)).1.fRotation = true := by
  have hok : (Begin Real.sin Real.cos (appBeginOk ℝ) (exampleGeo ℝ)).2 = EStatus.kOK :=
    (Begin_status Real.sin Real.cos _ _).2 rfl
  obtain ⟨-, -, -, hT, hR, -, -⟩ := Begin_state Real.sin Real.cos (appBeginOk ℝ)
    (exampleGeo ℝ) hok
  refine ⟨hok, ?_, ?_⟩
  · rw [hT, SetGeoPosition_fTranslation]
    rintro ⟨h0, -, -⟩
    norm_num [appBeginOk, exampleGeo, SetEulerAngle, SetOrigin] at h0
  · rw [hR, SetGeoPosition_fRotation]
    rintro ⟨h0, -, -⟩
    norm_num [appBeginOk, exampleGeo, SetEulerAngle, SetOrigin] at h0

/-- C1. Round trip: whatever the origin and the Euler angles of the object (hence in each of
the four modes `Begin` can select), after a successful `Begin` the selected pair satisfies
`toLab (toGeometry p) = p` for every point `p`, exactly, over the reals. -/
theorem C1_round_trip (appBegin : G2PGeoBase ℝ → G2PGeoBase ℝ × Int) (g : G2PGeoBase ℝ)
    (p : Fin 3 → ℝ) (h : (Begin Real.sin Real.cos appBegin g).2 = EStatus.kOK) :
    (toGeometry (Begin Real.sin Real.cos appBegin g).1 p).bind
      (toLab (Begin Real.sin Real.cos appBegin g).1) = some p := by
  obtain ⟨-, -, -, hT, hR, hL, hG⟩ := Begin_state Real.sin Real.cos appBegin g h
  have hOrth := Begin_orthogonal appBegin g h
  generalize (Begin Real.sin Real.cos appBegin g).1 = g' at *
  rw [← hT, ← hR] at hL hG
  cases hT' : g'.fTranslation <;> cases hR' : g'.fRotation <;>
    simp only [hT', hR', if_true, if_false, Bool.false_eq_true] at hL hG
  · simp [toGeometry, toLab, hL, hG, Lab2GeoNoTNoR_eq, Geo2LabNoTNoR_eq]
  · obtain ⟨h10, -⟩ := hOrth hR'
    simp [toGeometry, toLab, hL, hG, Lab2GeoNoT_eq_mulVec, Geo2LabNoT_eq_mulVec,
      Matrix.mulVec_mulVec, h10]
  · simp [toGeometry, toLab, hL, hG, Lab2GeoNoR_eq, Geo2LabNoR_eq]
  · obtain ⟨h10, -⟩ := hOrth hR'
    simp [toGeometry, toLab, hL, hG, Lab2Geo, Geo2Lab, Lab2GeoNoR_eq, Geo2LabNoR_eq,
      Lab2GeoNoT_eq_mulVec, Geo2LabNoT_eq_mulVec, Matrix.mulVec_mulVec, h10]

/-- Witness of C1: origin (1, 2, 3), angles (1, 2, 3), an upstream `Begin` that succeeds, the
point (4, 5, 6). -/
theorem C1_round_trip_witness :
    (Begin Real.sin Real.cos (appBeginOk ℝ) (exampleGeo ℝ)).2 = EStatus.kOK ∧
    (toGeometry (Begin Real.sin Real.cos (appBeginOk ℝ) (exampleGeo ℝ)).1 ![4, 5, 6]).bind
      (toLab (Begin Real.sin Real.cos (appBeginOk ℝ) (exampleGeo ℝ)).1) = some ![4, 5, 6] :=
  ⟨Begin_example.1, C1_round_trip (appBeginOk ℝ) (exampleGeo ℝ) ![4, 5, 6] Begin_example.1⟩

/-- C2 fails as stated: for the angles (0, 0, 0) a fresh transform keeps its zeroed matrices,
whose product is not the identity. -/
theorem C2_counterexample :
    (SetGeoPosition Real.sin Real.cos
        (SetEulerAngle 0 0 0 (G2PGeoBase.new EStatus.kOK))).fRotationMatrix 0
      * (SetGeoPosition Real.sin Real.cos
        (SetEulerAngle 0 0 0 (G2PGeoBase.new EStatus.kOK))).fRotationMatrix 1 ≠ 1 := by
  have hs : |(SetEulerAngle (0 : ℝ) 0 0 (G2PGeoBase.new EStatus.kOK)).fEulerAngle 0| < 1e-5 ∧
      |(SetEulerAngle (0 : ℝ) 0 0 (G2PGeoBase.new EStatus.kOK)).fEulerAngle 1| < 1e-5 ∧
      |(SetEulerAngle (0 : ℝ) 0 0 (G2PGeoBase.new EStatus.kOK)).fEulerAngle 2| < 1e-5 := by
    norm_num [SetEulerAngle]
  rw [SetGeoPosition_matrix_small _ _ _ hs]
  intro h
  have h00 := congrFun (congrFun h 0) 0
  simp [SetEulerAngle, G2PGeoBase.new, Matrix.mul_apply] at h00

/-- C2, amended. For every Euler-angle triple with at least one angle of magnitude at least
1e-5, on a freshly constructed transform `SetGeoPosition` stores a forward and an inverse
matrix whose product is the identity (real arithmetic). -/
theorem C2_orthogonality_active (a b c : ℝ) (s : EStatus)
    (h : ¬ (|a| < 1e-5 ∧ |b| < 1e-5 ∧ |c| < 1e-5)) :
    (SetGeoPosition Real.sin Real.cos
        (SetEulerAngle a b c (G2PGeoBase.new s))).fRotationMatrix 0
      * (SetGeoPosition Real.sin Real.cos
        (SetEulerAngle a b c (G2PGeoBase.new s))).fRotationMatrix 1 = 1 := by
  have hang : ¬ (|(SetEulerAngle a b c (G2PGeoBase.new s)).fEulerAngle 0| < 1e-5 ∧
      |(SetEulerAngle a b c (G2PGeoBase.new s)).fEulerAngle 1| < 1e-5 ∧
      |(SetEulerAngle a b c (G2PGeoBase.new s)).fEulerAngle 2| < 1e-5) := by
    simpa [SetEulerAngle] using h
  obtain ⟨h1, h0⟩ := SetGeoPosition_matrix_rot Real.sin Real.cos _ hang
  rw [h1, h0]
  exact euler_transpose_mul _ _ _

/-- Witness of C2 (amended) at the angles (pi/4, pi/3, pi/2). -/
theorem C2_orthogonality_active_witness :
    ¬ (|Real.pi / 4| < 1e-5 ∧ |Real.pi / 3| < 1e-5 ∧ |Real.pi / 2| < 1e-5) ∧
    (SetGeoPosition Real.sin Real.cos
        (SetEulerAngle (Real.pi / 4) (Real.pi / 3) (Real.pi / 2)
          (G2PGeoBase.new EStatus.kOK))).fRotationMatrix 0
      * (SetGeoPosition Real.sin Real.cos
        (SetEulerAngle (Real.pi / 4) (Real.pi / 3) (Real.pi / 2)
          (G2PGeoBase.new EStatus.kOK))).fRotationMatrix 1 = 1 := by
  have hpi : ¬ (|Real.pi / 4| < 1e-5 ∧ |Real.pi / 3| < 1e-5 ∧ |Real.pi / 2| < 1e-5) := by
    rintro ⟨h4, -, -⟩
    rw [abs_of_pos (by positivity)] at h4
    have := Real.pi_gt_three
    norm_num at h4
    linarith
  exact ⟨hpi, C2_orthogonality_active _ _ _ EStatus.kOK hpi⟩

/-- C7. Composition order: after a successful `Begin` with translation and rotation both
active, `toGeometry p` is the forward matrix applied to `p - origin` and `toLab q` is the
stored inverse matrix applied to `q`, plus the origin. -/
theorem C7_composition_order (appBegin : G2PGeoBase ℝ → G2PGeoBase ℝ × Int) (g : G2PGeoBase ℝ)
    (p q : Fin 3 → ℝ) (h : (Begin Real.sin Real.cos appBegin g).2 = EStatus.kOK)
    (hT : (Begin Real.sin Real.cos appBegin g).1.fTranslation = true)
    (hR : (Begin Real.sin Real.cos appBegin g).1.fRotation = true) :
    toGeometry (Begin Real.sin Real.cos appBegin g).1 p
      = some (Matrix.mulVec ((Begin Real.sin Real.cos appBegin g).1.fRotationMatrix 0)
          (p - (Begin Real.sin Real.cos appBegin g).1.fOrigin)) ∧
    toLab (Begin Real.sin Real.cos appBegin g).1 q
      = some (Matrix.mulVec ((Begin Real.sin Real.cos appBegin g).1.fRotationMatrix 1) q
          + (Begin Real.sin Real.cos appBegin g).1.fOrigin) := by
  obtain ⟨-, -, -, hT0, hR0, hL, hG⟩ := Begin_state Real.sin Real.cos appBegin g h
  rw [← hT0, ← hR0] at hL hG
  generalize (Begin Real.sin Real.cos appBegin g).1 = g' at *
  simp only [hT, hR, if_true] at hL hG
  simp [toGeometry, toLab, hL, hG, Lab2Geo, Geo2Lab, Lab2GeoNoR_eq, Geo2LabNoR_eq,
    Lab2GeoNoT_eq_mulVec, Geo2LabNoT_eq_mulVec]

/-- Witness of C7: origin (1, 2, 3), angles (1, 2, 3), the points (4, 5, 6) and (7, 8, 9). -/
theorem C7_composition_order_witness :
    toGeometry (Begin Real.sin Real.cos (appBeginOk ℝ) (exampleGeo ℝ)).1 ![4, 5, 6]
      = some (Matrix.mulVec
          ((Begin Real.sin Real.cos (appBeginOk ℝ) (exampleGeo ℝ)).1.fRotationMatrix 0)
          (![4, 5, 6] - (Begin Real.sin Real.cos (appBeginOk ℝ) (exampleGeo ℝ)).1.fOrigin)) ∧
    toLab (Begin Real.sin Real.cos (appBeginOk ℝ) (exampleGeo ℝ)).1 ![7, 8, 9]
      = some (Matrix.mulVec
          ((Begin Real.sin Real.cos (appBeginOk ℝ) (exampleGeo ℝ)).1.fRotationMatrix 1)
          ![7, 8, 9] + (Begin Real.sin Real.cos (appBeginOk ℝ) (exampleGeo ℝ)).1.fOrigin) :=
  C7_composition_order (appBeginOk ℝ) (exampleGeo ℝ) ![4, 5, 6] ![7, 8, 9]
    Begin_example.1 Begin_example.2.1 Begin_example.2.2

/-- C8. Mode selection: after a successful `Begin`, translation is active iff some origin
component has magnitude at least 1e-5, rotation is active iff some Euler angle has magnitude
at least 1e-5, and the selected pair is: neither active, the identity; translation only,
`p - origin` and `q + origin`; rotation only, the forward matrix applied to `p` and the stored
inverse applied to `q`; both, the composed pair. So components all below the threshold are
ignored by the transforms. -/
theorem C8_mode_selection (appBegin : G2PGeoBase ℝ → G2PGeoBase ℝ × Int) (g : G2PGeoBase ℝ)
    (p q : Fin 3 → ℝ) (h : (Begin Real.sin Real.cos appBegin g).2 = EStatus.kOK) :
    ((Begin Real.sin Real.cos appBegin g).1.fTranslation = true ↔
      ∃ i, 1e-5 ≤ |(Begin Real.sin Real.cos appBegin g).1.fOrigin i|) ∧
    ((Begin Real.sin Real.cos appBegin g).1.fRotation = true ↔
      ∃ i, 1e-5 ≤ |(Begin Real.sin Real.cos appBegin g).1.fEulerAngle i|) ∧
    ((Begin Real.sin Real.cos appBegin g).1.fTranslation = false →
      (Begin Real.sin Real.cos appBegin g).1.fRotation = false →
      toGeometry (Begin Real.sin Real.cos appBegin g).1 p = some p ∧
      toLab (Begin Real.sin Real.cos appBegin g).1 q = some q) ∧
    ((Begin Real.sin Real.cos appBegin g).1.fTranslation = true →
      (Begin Real.sin Real.cos appBegin g).1.fRotation = false →
      toGeometry (Begin Real.sin Real.cos appBegin g).1 p
        = some (p - (Begin Real.sin Real.cos appBegin g).1.fOrigin) ∧
      toLab (Begin Real.sin Real.cos appBegin g).1 q
        = some (q + (Begin Real.sin Real.cos appBegin g).1.fOrigin)) ∧
    ((Begin Real.sin Real.cos appBegin g).1.fTranslation = false →
      (Begin Real.sin Real.cos appBegin g).1.fRotation = true →
      toGeometry (Begin Real.sin Real.cos appBegin g).1 p
        = some (Matrix.mulVec ((Begin Real.sin Real.cos appBegin g).1.fRotationMatrix 0) p) ∧
      toLab (Begin Real.sin Real.cos appBegin g).1 q
        = some (Matrix.mulVec ((Begin Real.sin Real.cos appBegin g).1.fRotationMatrix 1) q)) ∧
    ((Begin Real.sin Real.cos appBegin g).1.fTranslation = true →
      (Begin Real.sin Real.cos appBegin g).1.fRotation = true →
      toGeometry (Begin Real.sin Real.cos appBegin g).1 p
        = some (Matrix.mulVec ((Begin Real.sin Real.cos appBegin g).1.fRotationMatrix 0)
            (p - (Begin Real.sin Real.cos appBegin g).1.fOrigin)) ∧
      toLab (Begin Real.sin Real.cos appBegin g).1 q
        = some (Matrix.mulVec ((Begin Real.sin Real.cos appBegin g).1.fRotationMatrix 1) q
            + (Begin Real.sin Real.cos appBegin g).1.fOrigin)) := by
  obtain ⟨hO, hE, -, hT0, hR0, hL, hG⟩ := Begin_state Real.sin Real.cos appBegin g h
  have hTiff := SetGeoPosition_fTranslation Real.sin Real.cos (appBegin g).1
  have hRiff := SetGeoPosition_fRotation Real.sin Real.cos (appBegin g).1
  rw [← hT0, not_all_small_iff, ← hO] at hTiff
  rw [← hR0, not_all_small_iff, ← hE] at hRiff
  rw [← hT0, ← hR0] at hL hG
  generalize (Begin Real.sin Real.cos appBegin g).1 = g' at *
  refine ⟨hTiff, hRiff, ?_, ?_, ?_, ?_⟩
  · intro hT hR
    simp only [hT, hR, if_false, Bool.false_eq_true] at hL hG
    simp [toGeometry, toLab, hL, hG, Lab2GeoNoTNoR_eq, Geo2LabNoTNoR_eq]
  · intro hT hR
    simp only [hT, hR, if_true, if_false, Bool.false_eq_true] at hL hG
    simp [toGeometry, toLab, hL, hG, Lab2GeoNoR_eq, Geo2LabNoR_eq]
  · intro hT hR
    simp only [hT, hR, if_true, if_false, Bool.false_eq_true] at hL hG
    simp [toGeometry, toLab, hL, hG, Lab2GeoNoT_eq_mulVec, Geo2LabNoT_eq_mulVec]
  · intro hT hR
    simp only [hT, hR, if_true] at hL hG
    simp [toGeometry, toLab, hL, hG, Lab2Geo, Geo2Lab, Lab2GeoNoR_eq, Geo2LabNoR_eq,
      Lab2GeoNoT_eq_mulVec, Geo2LabNoT_eq_mulVec]

/-- Witness of C8: a fresh transform with origin (0.000001, 0, 0) and angles (0, 0, 0.000002),
all below the threshold: neither mode is active and both transforms are the identity. -/
theorem C8_mode_selection_witness :
    (Begin Real.sin Real.cos (appBeginOk ℝ)
      (SetEulerAngle 0 0 0.000002 (SetOrigin 0.000001 0 0 (G2PGeoBase.new EStatus.kOK)))).2
      = EStatus.kOK ∧
    toGeometry (Begin Real.sin Real.cos (appBeginOk ℝ)
      (SetEulerAngle 0 0 0.000002 (SetOrigin 0.000001 0 0 (G2PGeoBase.new EStatus.kOK)))).1
      ![4, 5, 6] = some ![4, 5, 6] ∧
    toLab (Begin Real.sin Real.cos (appBeginOk ℝ)
      (SetEulerAngle 0 0 0.000002 (SetOrigin 0.000001 0 0 (G2PGeoBase.new EStatus.kOK)))).1
      ![7, 8, 9] = some ![7, 8, 9] := by
  have hok : (Begin Real.sin Real.cos (appBeginOk ℝ)
      (SetEulerAngle 0 0 0.000002 (SetOrigin 0.000001 0 0 (G2PGeoBase.new EStatus.kOK)))).2
      = EStatus.kOK := (Begin_status Real.sin Real.cos _ _).2 rfl
  obtain ⟨hT, hR, hNone, -⟩ := C8_mode_selection (appBeginOk ℝ)
    (SetEulerAngle 0 0 0.000002 (SetOrigin 0.000001 0 0 (G2PGeoBase.new EStatus.kOK)))
    ![4, 5, 6] ![7, 8, 9] hok
  obtain ⟨hO, hE, -⟩ := Begin_state Real.sin Real.cos (appBeginOk ℝ)
    (SetEulerAngle 0 0 0.000002 (SetOrigin 0.000001 0 0 (G2PGeoBase.new EStatus.kOK))) hok
  have hTf : (Begin Real.sin Real.cos (appBeginOk ℝ)
      (SetEulerAngle 0 0 0.000002 (SetOrigin 0.000001 0 0 (G2PGeoBase.new EStatus.kOK)))).1.fTranslation
      = false := by
    rw [← Bool.not_eq_true, hT, hO]
    rintro ⟨i, hi⟩
    have hlt : |(appBeginOk ℝ (SetEulerAngle 0 0 0.000002
        (SetOrigin 0.000001 0 0 (G2PGeoBase.new EStatus.kOK)))).1.fOrigin i| < 1e-5 := by
      rw [abs_lt]
      fin_cases i <;> norm_num [appBeginOk, SetEulerAngle, SetOrigin, G2PGeoBase.new]
    exact absurd hi (not_le.mpr hlt)
  have hRf : (Begin Real.sin Real.cos (appBeginOk ℝ)
      (SetEulerAngle 0 0 0.000002 (SetOrigin 0.000001 0 0 (G2PGeoBase.new EStatus.kOK)))).1.fRotation
      = false := by
    rw [← Bool.not_eq_true, hR, hE]
    rintro ⟨i, hi⟩
    have hlt : |(appBeginOk ℝ (SetEulerAngle 0 0 0.000002
        (SetOrigin 0.000001 0 0 (G2PGeoBase.new EStatus.kOK)))).1.fEulerAngle i| < 1e-5 := by
      rw [abs_lt]
      fin_cases i <;> norm_num [appBeginOk, SetEulerAngle, SetOrigin, G2PGeoBase.new]
    exact absurd hi (not_le.mpr hlt)
  exact ⟨hok, hNone hTf hRf⟩

/-- C9. Euler construction: whenever `SetGeoPosition` finds rotation active, the forward matrix
it stores is the transpose of `Rz alpha * Rx beta * Rz gamma`, and the stored inverse matrix is
the transpose of the forward matrix, that is `Rz alpha * Rx beta * Rz gamma`. -/
theorem C9_euler_construction (g : G2PGeoBase ℝ)
    (h : (SetGeoPosition Real.sin Real.cos g).fRotation = true) :
    (SetGeoPosition Real.sin Real.cos g).fRotationMatrix 0
        = (Rz Real.sin Real.cos (g.fEulerAngle 0) * Rx Real.sin Real.cos (g.fEulerAngle 1)
            * Rz Real.sin Real.cos (g.fEulerAngle 2)).transpose ∧
      (SetGeoPosition Real.sin Real.cos g).fRotationMatrix 1
        = ((SetGeoPosition Real.sin Real.cos g).fRotationMatrix 0).transpose ∧
      (SetGeoPosition Real.sin Real.cos g).fRotationMatrix 1
        = Rz Real.sin Real.cos (g.fEulerAngle 0) * Rx Real.sin Real.cos (g.fEulerAngle 1)
            * Rz Real.sin Real.cos (g.fEulerAngle 2) := by
  have hang := (SetGeoPosition_fRotation Real.sin Real.cos g).1 h
  obtain ⟨h1, h0⟩ := SetGeoPosition_matrix_rot Real.sin Real.cos g hang
  refine ⟨h0, ?_, h1⟩
  rw [h1, h0, Matrix.transpose_transpose]

/-- Witness of C9: the example object, with Euler angles (1, 2, 3). -/
theorem C9_euler_construction_witness :
    (SetGeoPosition Real.sin Real.cos (exampleGeo ℝ)).fRotation = true ∧
    (SetGeoPosition Real.sin Real.cos (exampleGeo ℝ)).fRotationMatrix 1
      = Rz Real.sin Real.cos 1 * Rx Real.sin Real.cos 2 * Rz Real.sin Real.cos 3 := by
  have hrot : (SetGeoPosition Real.sin Real.cos (exampleGeo ℝ)).fRotation = true := by
    rw [SetGeoPosition_fRotation]
    rintro ⟨h0, -, -⟩
    norm_num [exampleGeo, SetEulerAngle, SetOrigin] at h0
  refine ⟨hrot, ?_⟩
  have h := (C9_euler_construction (exampleGeo ℝ) hrot).2.2
  simpa [exampleGeo, SetEulerAngle, SetOrigin] using h

/-! ## Theorems: G2PMaterial -/

@[simp] theorem Dbl.fin_add_fin {K : Type} [LinearOrderedField K] (x y : K) :
    Dbl.fin x + Dbl.fin y = Dbl.fin (x + y) := rfl

@[simp] theorem Dbl.fin_sub_fin {K : Type} [LinearOrderedField K] (x y : K) :
    Dbl.fin x - Dbl.fin y = Dbl.fin (x - y) := by
  show Dbl.add (Dbl.fin x) (Dbl.neg (Dbl.fin y)) = _
  simp [Dbl.add, Dbl.neg, sub_eq_add_neg]

@[simp] theorem Dbl.fin_mul_fin {K : Type} [LinearOrderedField K] (x y : K) :
    Dbl.fin x * Dbl.fin y = Dbl.fin (x * y) := rfl

theorem Dbl.fin_div_fin {K : Type} [LinearOrderedField K] (x y : K) (hy : y ≠ 0) :
    Dbl.fin x / Dbl.fin y = Dbl.fin (x / y) := by
  show Dbl.div (Dbl.fin x) (Dbl.fin y) = _
  simp [Dbl.div, hy]

@[simp] theorem Dbl.zero_div_zero {K : Type} [LinearOrderedField K] :
    (Dbl.fin (0 : K)) / Dbl.fin 0 = Dbl.nan := by
  show Dbl.div (Dbl.fin 0) (Dbl.fin 0) = _
  simp [Dbl.div, Dbl.signedInf]

@[simp] theorem Dbl.nan_mul {K : Type} [LinearOrderedField K] (a : Dbl K) :
    Dbl.nan * a = Dbl.nan := rfl

@[simp] theorem Dbl.nan_div {K : Type} [LinearOrderedField K] (a : Dbl K) :
    Dbl.nan / a = Dbl.nan := rfl

@[simp] theorem Dbl.nan_add {K : Type} [LinearOrderedField K] (a : Dbl K) :
    Dbl.nan + a = Dbl.nan := rfl

@[simp] theorem Dbl.ne_fin_fin {K : Type} [LinearOrderedField K] (x y : K) :
    Dbl.ne (Dbl.fin x) (Dbl.fin y) = decide (x ≠ y) := rfl

@[simp] theorem Dbl.ne_nan_left {K : Type} [LinearOrderedField K] (a : Dbl K) :
    Dbl.ne Dbl.nan a = true := rfl

@[simp] theorem Dbl.lt_fin_fin {K : Type} [LinearOrderedField K] (x y : K) :
    Dbl.lt (Dbl.fin x) (Dbl.fin y) = decide (x < y) := rfl

@[simp] theorem Dbl.gt_fin_fin {K : Type} [LinearOrderedField K] (x y : K) :
    Dbl.gt (Dbl.fin x) (Dbl.fin y) = decide (y < x) := rfl

@[simp] theorem Dbl.lt_nan_left {K : Type} [LinearOrderedField K] (a : Dbl K) :
    Dbl.lt Dbl.nan a = false := rfl

@[simp] theorem Dbl.gt_nan_left {K : Type} [LinearOrderedField K] (a : Dbl K) :
    Dbl.gt Dbl.nan a = false := by
  cases a <;> rfl

@[simp] theorem Dbl.fin_zero_add {K : Type} [LinearOrderedField K] (a : Dbl K) :
    Dbl.fin 0 + a = a := by
  cases a with
  | fin x => simp
  | pinf => rfl
  | ninf => rfl
  | nan => rfl

/-- The body of `Ionization`: the guarded Landau sample, then the two clamps. -/
theorem Ionization_eq_clampTail {K R : Type} [LinearOrderedField K] (lm : Libm K)
    (pRand : G2PRand K R) (m : G2PMaterial K) (E l : Dbl K) (r : R) :
    Ionization lm pRand m E l r
      = clampTail (E - kELECTRONMASS)
          (if decide (m.fZ ≠ 0) && decide (m.fA ≠ 0) && Dbl.ne (l * m.fDensity) (Dbl.fin 0)
              && Dbl.ne m.fDensity (Dbl.fin 0) then
            pRand.Landau
              (Dbl.fin 0.307075 / Dbl.fin 2 * Dbl.fin m.fZ / Dbl.fin m.fA * (l * m.fDensity)
                  / (Dbl.fin 1 - kELECTRONMASS * kELECTRONMASS / (E * E))
                * (lm.log (Dbl.fin 2 * kELECTRONMASS
                    * (Dbl.fin 0.307075 / Dbl.fin 2 * Dbl.fin m.fZ / Dbl.fin m.fA
                        * (l * m.fDensity)
                        / (Dbl.fin 1 - kELECTRONMASS * kELECTRONMASS / (E * E)))
                    / (Dbl.fin 28.816 * Dbl.fin 28.816 * m.fDensity * Dbl.fin m.fZ
                        / Dbl.fin m.fA * Dbl.fin 1e-12)) + Dbl.fin 0.200))
              (Dbl.fin 4 * (Dbl.fin 0.307075 / Dbl.fin 2 * Dbl.fin m.fZ / Dbl.fin m.fA
                  * (l * m.fDensity)
                  / (Dbl.fin 1 - kELECTRONMASS * kELECTRONMASS / (E * E)))) r
          else (Dbl.fin 0, r)) := rfl

/-- The body of `Bremsstrahlung`: the guarded power of the uniform sample, then the two
clamps. -/
theorem Bremsstrahlung_eq_clampTail {K R : Type} [LinearOrderedField K] (lm : Libm K)
    (pRand : G2PRand K R) (m : G2PMaterial K) (E l : Dbl K) (r : R) :
    Bremsstrahlung lm pRand m E l r
      = clampTail (E - kELECTRONMASS)
          (if Dbl.ne (l * m.fDensity / m.fX0 * b lm m) (Dbl.fin 0) then
            (E * lm.pow ((pRand.Uniform r).1 * Dbl.fin 0.999)
                (Dbl.fin 1 / (l * m.fDensity / m.fX0 * b lm m)), (pRand.Uniform r).2)
          else (Dbl.fin 0, r)) := rfl

theorem clampTail_snd {K R : Type} [LinearOrderedField K] (bound : Dbl K) (v : Dbl K × R) :
    (clampTail bound v).2 = v.2 := by
  unfold clampTail
  by_cases h1 : Dbl.gt v.1 bound = true
  · by_cases h2 : Dbl.lt bound (Dbl.fin 0) = true <;> simp [h1, h2]
  · by_cases h2 : Dbl.lt v.1 (Dbl.fin 0) = true <;> simp [h1, h2]

/-- The two clamps on a number: into `[0, h]` when `0 ≤ h`, and to 0 otherwise. -/
theorem clampTail_fin {K R : Type} [LinearOrderedField K] (h a : K) (r : R) :
    clampTail (Dbl.fin h) (Dbl.fin a, r) = (Dbl.fin (max 0 (min a h)), r) := by
  unfold clampTail
  by_cases h1 : h < a
  · by_cases h2 : h < 0
    · simp [h1, h2, min_eq_right h1.le, max_eq_left h2.le]
    · simp [h1, h2, min_eq_right h1.le, max_eq_right (not_lt.mp h2)]
  · by_cases h2 : a < 0
    · simp [h1, h2, min_eq_left (not_lt.mp h1), max_eq_left h2.le]
    · simp [h1, h2, min_eq_left (not_lt.mp h1), max_eq_right (not_lt.mp h2)]

theorem clampTail_zero {K R : Type} [LinearOrderedField K] (h : K) (r : R) :
    clampTail (Dbl.fin h) (Dbl.fin 0, r) = (Dbl.fin 0, r) := by
  rw [clampTail_fin]
  by_cases h0 : 0 ≤ h
  · simp [min_eq_left h0]
  · simp [min_eq_right (not_le.mp h0).le, max_eq_left (not_le.mp h0).le]

/-- The clamps let `NaN` through. -/
theorem clampTail_nan {K R : Type} [LinearOrderedField K] (bound : Dbl K) (r : R) :
    clampTail bound (Dbl.nan, r) = (Dbl.nan, r) := by
  simp [clampTail]

/-- For `Z = 1` the Tsai factor is a number not below 1, whatever `log` and `pow` are. -/
theorem b_Z_one {K : Type} [LinearOrderedField K] (lm : Libm K) (m : G2PMaterial K)
    (hZ : m.fZ = 1) : ∃ bz : K, b lm m = Dbl.fin bz ∧ 1 ≤ bz := by
  refine ⟨(4.0 / 3.0) * (1.0 + (1.0 / 9.0) * 2
    / ((4.79 - 5.31) * 0 + 5.31 + ((5.621 - 6.144) * 0 + 6.144))), ?_, ?_⟩
  · unfold b
    simp only [hZ]
    norm_num [Dbl.fin_div_fin]
  · norm_num

/-- With `Z = 0` the Tsai factor is 0. -/
theorem b_Z_zero {K : Type} [LinearOrderedField K] (lm : Libm K) (m : G2PMaterial K)
    (hZ : m.fZ = 0) : b lm m = Dbl.fin 0 := by
  simp [b, hZ]

theorem realPow_pos (a c : ℝ) (ha : 0 < a) (ha1 : a ≠ 1) (hc : c ≠ 0) :
    Libm.real.pow (Dbl.fin a) (Dbl.fin c) = Dbl.fin (a ^ c) := by
  show realPow _ _ = _
  simp [realPow, hc, ha1, ha]

/-- The bremsstrahlung contribution for the example material at E = 1000 MeV, l = 1 and the
uniform sample 1/2: a number between 499.5 and 1000 - 0.510998918. -/
theorem Bremsstrahlung_example (g lan : Dbl ℝ) (r : Nat) :
    ∃ x : ℝ, Bremsstrahlung Libm.real (constRand (Dbl.fin (1 / 2)) g lan) (exampleMaterial ℝ)
        (Dbl.fin 1000) (Dbl.fin 1) r = (Dbl.fin x, r + 1) ∧ 499.5 ≤ x ∧
        x ≤ 1000 - 0.510998918 := by
  obtain ⟨bz, hb, hbz⟩ := b_Z_one Libm.real (exampleMaterial ℝ) rfl
  have hbz0 : bz ≠ 0 := by linarith
  have hbt : Dbl.fin (1 : ℝ) * (exampleMaterial ℝ).fDensity / (exampleMaterial ℝ).fX0
      * b Libm.real (exampleMaterial ℝ) = Dbl.fin bz := by
    rw [hb]
    simp [exampleMaterial, Dbl.fin_div_fin]
  have hpow : Libm.real.pow (Dbl.fin (1 / 2 * 0.999)) (Dbl.fin 1 / Dbl.fin bz)
      = Dbl.fin ((1 / 2 * 0.999 : ℝ) ^ (1 / bz)) := by
    rw [Dbl.fin_div_fin _ _ hbz0]
    exact realPow_pos _ _ (by norm_num) (by norm_num) (by simpa using hbz0)
  have hlow : (1 / 2 * 0.999 : ℝ) ≤ (1 / 2 * 0.999 : ℝ) ^ (1 / bz) := by
    have h1 : (1 / 2 * 0.999 : ℝ) ^ (1 : ℝ) ≤ (1 / 2 * 0.999 : ℝ) ^ (1 / bz) :=
      Real.rpow_le_rpow_of_exponent_ge (by norm_num) (by norm_num)
        (by rw [div_le_one (by linarith)]; exact hbz)
    simpa using h1
  refine ⟨max 0 (min (1000 * (1 / 2 * 0.999 : ℝ) ^ (1 / bz)) (1000 - 0.510998918)), ?_, ?_, ?_⟩
  · rw [Bremsstrahlung_eq_clampTail, hbt]
    simp only [Dbl.ne_fin_fin, ne_eq, hbz0, not_false_eq_true, decide_True, if_true]
    simp only [constRand, kELECTRONMASS, Dbl.fin_mul_fin, Dbl.fin_sub_fin, hpow]
    rw [clampTail_fin]
  · apply le_max_of_le_right
    apply le_min
    · linarith
    · norm_num
  · apply max_le
    · norm_num
    · exact min_le_right _ _

/-- C3 fails on the code: for the example material (Z = 1, A = 1, density 1, X0 1), E = 1 GeV,
l = 1, a Landau sample of 2000 MeV and a uniform sample of 1/2, `EnergyLoss` returns more than
1.49 GeV, above `E - restMass = 1 - 0.000510998918` GeV: each contribution is clamped to the
kinetic energy, their sum is not. -/
theorem C3_energy_loss_exceeds_bound :
    ∃ x : ℝ, (EnergyLoss Libm.real (constRand (Dbl.fin (1 / 2)) (Dbl.fin 0) (Dbl.fin 2000))
        (exampleMaterial ℝ) (Dbl.fin 1) (Dbl.fin 1) 0).1 = Dbl.fin x ∧
      1 - 0.000510998918 < x ∧ 1.49 < x := by
  obtain ⟨y, hy, hy1, hy2⟩ :=
    Bremsstrahlung_example (Dbl.fin 0) (Dbl.fin 2000) 1
  have hion : Ionization Libm.real (constRand (Dbl.fin (1 / 2)) (Dbl.fin 0) (Dbl.fin 2000))
      (exampleMaterial ℝ) (Dbl.fin 1000) (Dbl.fin 1) 0
      = (Dbl.fin (1000 - 0.510998918), 1) := by
    rw [Ionization_eq_clampTail]
    simp only [exampleMaterial, constRand, kELECTRONMASS, Dbl.fin_mul_fin, Dbl.fin_sub_fin,
      Dbl.ne_fin_fin]
    norm_num [clampTail_fin]
  refine ⟨(1000 - 0.510998918 + y) / 1000, ?_, ?_, ?_⟩
  · unfold EnergyLoss
    have h1000 : Dbl.fin (1 : ℝ) * Dbl.fin 1000 = Dbl.fin 1000 := by simp
    simp only [h1000, hion, hy, Dbl.fin_zero_add, Dbl.fin_add_fin]
    rw [Dbl.fin_div_fin _ _ (by norm_num)]
    norm_num
  · rw [lt_div_iff₀ (by norm_num)]
    linarith
  · rw [lt_div_iff₀ (by norm_num)]
    linarith

/-- C4 fails as stated: with density 0 and radiation length 0 the quotient `l * 0 / 0` is NaN,
the guard `thicknessr != 0` holds, the Gaussian sampler is called (the state of the source
advances) and its value is returned. -/
theorem C4_counterexample :
    ¬ (EnergyLoss Libm.real (constRand (Dbl.fin (1 / 2)) Dbl.nan (Dbl.fin 2000))
          (zeroDensityZeroX0 ℝ) (Dbl.fin 1) (Dbl.fin 1) 0 = (Dbl.fin 0, 0) ∧
       MultiScattering Libm.real (constRand (Dbl.fin (1 / 2)) Dbl.nan (Dbl.fin 2000))
          (zeroDensityZeroX0 ℝ) (Dbl.fin 1) (Dbl.fin 1) 0 = (Dbl.fin 0, 0)) := by
  rintro ⟨-, h⟩
  have hm : MultiScattering Libm.real (constRand (Dbl.fin (1 / 2)) Dbl.nan (Dbl.fin 2000))
      (zeroDensityZeroX0 ℝ) (Dbl.fin 1) (Dbl.fin 1) 0 = (Dbl.nan, 1) := by
    simp [MultiScattering, zeroDensityZeroX0, constRand]
  rw [hm] at h
  simp at h

/-- C4, amended. For every material with density 0, a non-zero radiation length and a finite
Tsai factor `b`, every finite E and l, every random source and every `<cmath>`:
`EnergyLoss` and `MultiScattering` return exactly 0 and leave the state of the random source
as it was (no sampler is called). -/
theorem C4_degenerate_density {K R : Type} [LinearOrderedField K] (lm : Libm K)
    (pRand : G2PRand K R) (m : G2PMaterial K)
    (E l x0 : K) (r : R) (hd : m.fDensity = Dbl.fin 0) (hx : m.fX0 = Dbl.fin x0)
    (hx0 : x0 ≠ 0) (hb : ∃ bz : K, b lm m = Dbl.fin bz) :
    EnergyLoss lm pRand m (Dbl.fin E) (Dbl.fin l) r = (Dbl.fin 0, r) ∧
    MultiScattering lm pRand m (Dbl.fin E) (Dbl.fin l) r = (Dbl.fin 0, r) := by
  obtain ⟨bz, hbz⟩ := hb
  constructor
  · have hion : Ionization lm pRand m (Dbl.fin E * Dbl.fin 1000) (Dbl.fin l) r
        = (Dbl.fin 0, r) := by
      rw [Ionization_eq_clampTail]
      simp [hd, kELECTRONMASS, clampTail_zero]
    have hbr : Bremsstrahlung lm pRand m (Dbl.fin E * Dbl.fin 1000) (Dbl.fin l) r
        = (Dbl.fin 0, r) := by
      rw [Bremsstrahlung_eq_clampTail]
      simp [hd, hx, hbz, Dbl.fin_div_fin _ _ hx0, kELECTRONMASS, clampTail_zero]
    unfold EnergyLoss
    simp only [hion, hbr, Dbl.fin_add_fin]
    rw [Dbl.fin_div_fin _ _ (by norm_num)]
    simp
  · unfold MultiScattering
    norm_num [hd, hx, Dbl.fin_div_fin _ _ hx0]

/-- Witness of C4 (amended): Z = 1, A = 1, density 0, radiation length 1, E = 1, l = 1. -/
theorem C4_degenerate_density_witness :
    EnergyLoss Libm.real (constRand (Dbl.fin (1 / 2)) (Dbl.fin 1) (Dbl.fin 2000))
        { exampleMaterial ℝ with fDensity := Dbl.fin 0 } (Dbl.fin 1) (Dbl.fin 1) 0
      = (Dbl.fin 0, 0) ∧
    MultiScattering Libm.real (constRand (Dbl.fin (1 / 2)) (Dbl.fin 1) (Dbl.fin 2000))
        { exampleMaterial ℝ with fDensity := Dbl.fin 0 } (Dbl.fin 1) (Dbl.fin 1) 0
      = (Dbl.fin 0, 0) :=
  C4_degenerate_density Libm.real _ { exampleMaterial ℝ with fDensity := Dbl.fin 0 } 1 1 1 0
    rfl rfl one_ne_zero
    ((b_Z_one Libm.real { exampleMaterial ℝ with fDensity := Dbl.fin 0 } rfl).imp
      (fun _ h => h.1))

/-- Two calls of `Configure` in READ mode in a row: when the loader leaves `fIsInit` set, the
second call returns 0 and changes nothing. -/
theorem Configure_read_twice {K : Type}
    (ConfigureFromList : G2PMaterial K → EMode → G2PMaterial K × Int) (m : G2PMaterial K)
    (hl : (ConfigureFromList { m with fIsInit := true } EMode.kREAD).1.fIsInit = true) :
    Configure ConfigureFromList EMode.kREAD (Configure ConfigureFromList EMode.kREAD m).1
      = ((Configure ConfigureFromList EMode.kREAD m).1, 0) := by
  cases hi : m.fIsInit
  · have h1 : Configure ConfigureFromList EMode.kREAD m
        = ConfigureFromList { m with fIsInit := true } EMode.kREAD := by
      simp [Configure, hi]
    rw [h1]
    simp [Configure, hl]
  · simp [Configure, hi]

/-- C6. Configuration idempotence: on a material that is already initialized, `Configure` in
READ mode returns 0 and leaves the object (Z, A, mass, density, radiation length and the
rest) as it was, whatever the configuration loader would do. -/
theorem C6_configure_idempotent {K : Type}
    (ConfigureFromList : G2PMaterial K → EMode → G2PMaterial K × Int) (m : G2PMaterial K)
    (h : m.fIsInit = true) :
    Configure ConfigureFromList EMode.kREAD m = (m, 0) := by
  simp [Configure, h]

/-- Witness of C6: the example material, with a loader that would overwrite every field. -/
theorem C6_configure_idempotent_witness :
    (exampleMaterial ℚ).fIsInit = true ∧
    Configure (fun _ _ => (zeroZA ℚ, 1)) EMode.kREAD (exampleMaterial ℚ)
      = (exampleMaterial ℚ, 0) :=
  ⟨rfl, C6_configure_idempotent _ (exampleMaterial ℚ) rfl⟩

/-! ## Theorems: G2PPhysBase -/

/-- C5. Atomic-mass fallback: on a freshly constructed object, for every Z outside the table
1, 2, 6, 7, 8, 26, 29, 74 and every A, `SetTarget Z A` stores Z and A and sets the target mass
to `A * 931.49406121`; and `SetTarget 50 120` gives a mass within relative tolerance 1e-6 of
`120 * 931.494`. -/
theorem C5_atomic_mass_fallback {K : Type} [LinearOrderedField K] (Z A : Int)
    (hZ : Z ∉ ([1, 2, 6, 7, 8, 26, 29, 74] : List Int)) :
    (SetTarget Z A (G2PPhysBase.new : G2PPhysBase K)).fTargetMass = (A : K) * 931.49406121 ∧
    (SetTarget Z A (G2PPhysBase.new : G2PPhysBase K)).fZ = Z ∧
    (SetTarget Z A (G2PPhysBase.new : G2PPhysBase K)).fA = A ∧
    |(SetTarget 50 120 (G2PPhysBase.new : G2PPhysBase K)).fTargetMass - 120 * 931.494|
      ≤ 1e-6 * (120 * 931.494) := by
  simp only [List.mem_cons, List.mem_singleton, List.not_mem_nil, or_false, not_or] at hZ
  obtain ⟨h1, h2, h6, h7, h8, h26, h29, h74⟩ := hZ
  have hfresh : |(0.0 : K)| < 1.0e-8 := by norm_num
  refine ⟨?_, ?_, ?_, ?_⟩
  · simp [SetTarget, SetTargetMass, G2PPhysBase.new, hfresh, h1, h2, h6, h7, h8, h26, h29, h74,
      kU]
  · simp [SetTarget, SetTargetMass, G2PPhysBase.new, hfresh]
  · simp [SetTarget, SetTargetMass, G2PPhysBase.new, hfresh]
  · have h50 : (SetTarget 50 120 (G2PPhysBase.new : G2PPhysBase K)).fTargetMass
        = 120 * 931.49406121 := by
      simp [SetTarget, SetTargetMass, G2PPhysBase.new, hfresh, kU]
    rw [h50, abs_le]
    constructor <;> norm_num

/-- Witness of C5 at Z = 50, A = 120. -/
theorem C5_atomic_mass_fallback_witness :
    (50 : Int) ∉ ([1, 2, 6, 7, 8, 26, 29, 74] : List Int) ∧
    (SetTarget 50 120 (G2PPhysBase.new : G2PPhysBase ℚ)).fTargetMass
      = ((120 : Int) : ℚ) * 931.49406121 :=
  ⟨by decide, (C5_atomic_mass_fallback 50 120 (by decide)).1⟩

/-! ## Theorems: G2PGeoBase, status, frozen state and isometry -/

/-- C12. -/
theorem C12_begin_status {K : Type} [LinearOrderedField K] (sin cos : K → K)
    (appBegin : G2PGeoBase K → G2PGeoBase K × Int) (g : G2PGeoBase K) :
    ((Begin sin cos appBegin g).2 = EStatus.kBEGINERROR ↔ (appBegin g).2 ≠ 0) ∧
    (Begin sin cos appBegin g).1.fStatus = (Begin sin cos appBegin g).2 ∧
    ((appBegin g).2 ≠ 0 →
      (Begin sin cos appBegin g).1
        = { (appBegin g).1 with fStatus := EStatus.kBEGINERROR }) ∧
    ((appBegin g).2 = 0 →
      (Begin sin cos appBegin g).2 = EStatus.kOK ∧
      (((Begin sin cos appBegin g).1.pfLab2Geo = some PfLab2Geo.Lab2Geo ∧
          (Begin sin cos appBegin g).1.pfGeo2Lab = some PfGeo2Lab.Geo2Lab) ∨
        ((Begin sin cos appBegin g).1.pfLab2Geo = some PfLab2Geo.Lab2GeoNoR ∧
          (Begin sin cos appBegin g).1.pfGeo2Lab = some PfGeo2Lab.Geo2LabNoR) ∨
        ((Begin sin cos appBegin g).1.pfLab2Geo = some PfLab2Geo.Lab2GeoNoT ∧
          (Begin sin cos appBegin g).1.pfGeo2Lab = some PfGeo2Lab.Geo2LabNoT) ∨
        ((Begin sin cos appBegin g).1.pfLab2Geo = some PfLab2Geo.Lab2GeoNoTNoR ∧
          (Begin sin cos appBegin g).1.pfGeo2Lab = some PfGeo2Lab.Geo2LabNoTNoR))) := by
  unfold Begin
  rcases h0 : appBegin g with ⟨g0, rc⟩
  by_cases hrc : rc = 0
  · subst hrc
    cases hT : (SetGeoPosition sin cos g0).fTranslation <;>
      cases hR : (SetGeoPosition sin cos g0).fRotation <;> simp [hT, hR]
  · simp [hrc]

/-- Witness of C12: the example object with an upstream `Begin` that fails. -/
theorem C12_begin_status_witness :
    (appBeginFail ℝ (exampleGeo ℝ)).2 ≠ 0 ∧
    (Begin Real.sin Real.cos (appBeginFail ℝ) (exampleGeo ℝ)).1
      = { (appBeginFail ℝ (exampleGeo ℝ)).1 with fStatus := EStatus.kBEGINERROR } :=
  ⟨by simp [appBeginFail],
    (C12_begin_status Real.sin Real.cos (appBeginFail ℝ) (exampleGeo ℝ)).2.2.1
      (by simp [appBeginFail])⟩

/-- The state left by a successful `Begin` on a fresh transform with origin (1, 0, 0): only
translation is active. -/
theorem Begin_translated :
    (Begin Real.sin Real.cos (appBeginOk ℝ) (SetOrigin 1 0 0 (G2PGeoBase.new EStatus.kOK))).1.pfLab2Geo
      = some PfLab2Geo.Lab2GeoNoR ∧
    (Begin Real.sin Real.cos (appBeginOk ℝ) (SetOrigin 1 0 0 (G2PGeoBase.new EStatus.kOK))).1.fOrigin
      = ![1, 0, 0] := by
  have hok : (Begin Real.sin Real.cos (appBeginOk ℝ)
      (SetOrigin 1 0 0 (G2PGeoBase.new EStatus.kOK))).2 = EStatus.kOK :=
    (Begin_status Real.sin Real.cos _ _).2 rfl
  obtain ⟨hO, -, -, -, -, hL, -⟩ := Begin_state Real.sin Real.cos (appBeginOk ℝ)
    (SetOrigin 1 0 0 (G2PGeoBase.new EStatus.kOK)) hok
  have hT : (SetGeoPosition Real.sin Real.cos
      (appBeginOk ℝ (SetOrigin 1 0 0 (G2PGeoBase.new EStatus.kOK))).1).fTranslation = true := by
    rw [SetGeoPosition_fTranslation]
    rintro ⟨h0, -, -⟩
    norm_num [appBeginOk, SetOrigin] at h0
  have hR : (SetGeoPosition Real.sin Real.cos
      (appBeginOk ℝ (SetOrigin 1 0 0 (G2PGeoBase.new EStatus.kOK))).1).fRotation = false := by
    rw [← Bool.not_eq_true, SetGeoPosition_fRotation, not_not]
    norm_num [appBeginOk, SetOrigin, G2PGeoBase.new]
  rw [hT, hR] at hL
  exact ⟨by simpa using hL, by rw [hO]; rfl⟩

/-- C14 fails as stated: on a transform initialised with origin (1, 0, 0), a later
`SetOrigin 5 0 0` changes the result of `toGeometry` at the point (0, 0, 0), from (-1, 0, 0)
to (-5, 0, 0). -/
theorem C14_counterexample :
    toGeometry (SetOrigin 5 0 0 (Begin Real.sin Real.cos (appBeginOk ℝ)
        (SetOrigin 1 0 0 (G2PGeoBase.new EStatus.kOK))).1) ![0, 0, 0]
      ≠ toGeometry (Begin Real.sin Real.cos (appBeginOk ℝ)
        (SetOrigin 1 0 0 (G2PGeoBase.new EStatus.kOK))).1 ![0, 0, 0] := by
  obtain ⟨hL, hO⟩ := Begin_translated
  generalize (Begin Real.sin Real.cos (appBeginOk ℝ)
    (SetOrigin 1 0 0 (G2PGeoBase.new EStatus.kOK))).1 = g' at hL hO ⊢
  intro h
  have h2 : toGeometry (SetOrigin 5 0 0 g') ![0, 0, 0] = some ![0 - 5, 0 - 0, 0 - 0] := by
    simp [toGeometry, SetOrigin, hL, Lab2GeoNoR]
  have h1 : toGeometry g' ![0, 0, 0] = some ![0 - 1, 0 - 0, 0 - 0] := by
    simp [toGeometry, hL, hO, Lab2GeoNoR]
  rw [h1, h2] at h
  have h0 := congrFun (Option.some.inj h) 0
  norm_num at h0

/-- C14, amended. After a successful `Begin`, a later `SetOrigin` or `SetEulerAngle` leaves the
two flags, the selected pair and the rotation matrices as they are; a later `SetEulerAngle`
leaves every result of `toGeometry` and `toLab` as it is, and so does a later `SetOrigin` when
translation is inactive. (With translation active the transforms read the origin when they
are called.) -/
theorem C14_frozen_state (appBegin : G2PGeoBase ℝ → G2PGeoBase ℝ × Int) (g : G2PGeoBase ℝ)
    (x y z alpha beta gamma : ℝ) (p q : Fin 3 → ℝ)
    (h : (Begin Real.sin Real.cos appBegin g).2 = EStatus.kOK) :
    ((SetOrigin x y z (Begin Real.sin Real.cos appBegin g).1).fTranslation
        = (Begin Real.sin Real.cos appBegin g).1.fTranslation ∧
      (SetOrigin x y z (Begin Real.sin Real.cos appBegin g).1).fRotation
        = (Begin Real.sin Real.cos appBegin g).1.fRotation ∧
      (SetOrigin x y z (Begin Real.sin Real.cos appBegin g).1).pfLab2Geo
        = (Begin Real.sin Real.cos appBegin g).1.pfLab2Geo ∧
      (SetOrigin x y z (Begin Real.sin Real.cos appBegin g).1).pfGeo2Lab
        = (Begin Real.sin Real.cos appBegin g).1.pfGeo2Lab ∧
      (SetOrigin x y z (Begin Real.sin Real.cos appBegin g).1).fRotationMatrix
        = (Begin Real.sin Real.cos appBegin g).1.fRotationMatrix) ∧
    ((SetEulerAngle alpha beta gamma (Begin Real.sin Real.cos appBegin g).1).fTranslation
        = (Begin Real.sin Real.cos appBegin g).1.fTranslation ∧
      (SetEulerAngle alpha beta gamma (Begin Real.sin Real.cos appBegin g).1).fRotation
        = (Begin Real.sin Real.cos appBegin g).1.fRotation ∧
      (SetEulerAngle alpha beta gamma (Begin Real.sin Real.cos appBegin g).1).pfLab2Geo
        = (Begin Real.sin Real.cos appBegin g).1.pfLab2Geo ∧
      (SetEulerAngle alpha beta gamma (Begin Real.sin Real.cos appBegin g).1).pfGeo2Lab
        = (Begin Real.sin Real.cos appBegin g).1.pfGeo2Lab ∧
      (SetEulerAngle alpha beta gamma (Begin Real.sin Real.cos appBegin g).1).fRotationMatrix
        = (Begin Real.sin Real.cos appBegin g).1.fRotationMatrix) ∧
    (toGeometry (SetEulerAngle alpha beta gamma (Begin Real.sin Real.cos appBegin g).1) p
        = toGeometry (Begin Real.sin Real.cos appBegin g).1 p ∧
      toLab (SetEulerAngle alpha beta gamma (Begin Real.sin Real.cos appBegin g).1) q
        = toLab (Begin Real.sin Real.cos appBegin g).1 q) ∧
    ((Begin Real.sin Real.cos appBegin g).1.fTranslation = false →
      toGeometry (SetOrigin x y z (Begin Real.sin Real.cos appBegin g).1) p
        = toGeometry (Begin Real.sin Real.cos appBegin g).1 p ∧
      toLab (SetOrigin x y z (Begin Real.sin Real.cos appBegin g).1) q
        = toLab (Begin Real.sin Real.cos appBegin g).1 q) := by
  obtain ⟨-, -, -, hT, hR, hL, hG⟩ := Begin_state Real.sin Real.cos appBegin g h
  rw [← hT, ← hR] at hL hG
  generalize (Begin Real.sin Real.cos appBegin g).1 = g' at *
  refine ⟨⟨rfl, rfl, rfl, rfl, rfl⟩, ⟨rfl, rfl, rfl, rfl, rfl⟩, ⟨?_, ?_⟩, ?_⟩
  · cases hT' : g'.fTranslation <;> cases hR' : g'.fRotation <;>
      simp only [hT', hR', if_true, if_false, Bool.false_eq_true] at hL <;>
      simp [toGeometry, SetEulerAngle, hL, Lab2Geo, Lab2GeoNoR, Lab2GeoNoT, Lab2GeoNoTNoR]
  · cases hT' : g'.fTranslation <;> cases hR' : g'.fRotation <;>
      simp only [hT', hR', if_true, if_false, Bool.false_eq_true] at hG <;>
      simp [toLab, SetEulerAngle, hG, Geo2Lab, Geo2LabNoR, Geo2LabNoT, Geo2LabNoTNoR]
  · intro hT'
    constructor
    · cases hR' : g'.fRotation <;>
        simp only [hT', hR', if_true, if_false, Bool.false_eq_true] at hL <;>
        simp [toGeometry, SetOrigin, hL, Lab2GeoNoT, Lab2GeoNoTNoR]
    · cases hR' : g'.fRotation <;>
        simp only [hT', hR', if_true, if_false, Bool.false_eq_true] at hG <;>
        simp [toLab, SetOrigin, hG, Geo2LabNoT, Geo2LabNoTNoR]

/-- Witness of C14 (amended): the example object, then `SetOrigin 5 0 0`. -/
theorem C14_frozen_state_witness :
    (Begin Real.sin Real.cos (appBeginOk ℝ) (exampleGeo ℝ)).2 = EStatus.kOK ∧
    toGeometry (SetEulerAngle 0 0 0 (Begin Real.sin Real.cos (appBeginOk ℝ) (exampleGeo ℝ)).1)
        ![4, 5, 6]
      = toGeometry (Begin Real.sin Real.cos (appBeginOk ℝ) (exampleGeo ℝ)).1 ![4, 5, 6] :=
  ⟨Begin_example.1,
    (C14_frozen_state (appBeginOk ℝ) (exampleGeo ℝ) 5 0 0 0 0 0 ![4, 5, 6] ![7, 8, 9]
      Begin_example.1).2.2.1.1⟩

/-- After a successful `Begin` with rotation active the stored inverse matrix is the transpose
of the forward matrix. -/
theorem Begin_transpose (appBegin : G2PGeoBase ℝ → G2PGeoBase ℝ × Int) (g : G2PGeoBase ℝ)
    (h : (Begin Real.sin Real.cos appBegin g).2 = EStatus.kOK)
    (hR : (Begin Real.sin Real.cos appBegin g).1.fRotation = true) :
    (Begin Real.sin Real.cos appBegin g).1.fRotationMatrix 1
      = ((Begin Real.sin Real.cos appBegin g).1.fRotationMatrix 0).transpose := by
  obtain ⟨-, -, hM, -, hRot, -, -⟩ := Begin_state Real.sin Real.cos appBegin g h
  rw [hRot] at hR
  have hang := (SetGeoPosition_fRotation Real.sin Real.cos (appBegin g).1).1 hR
  obtain ⟨h1, h0⟩ := SetGeoPosition_matrix_rot Real.sin Real.cos (appBegin g).1 hang
  rw [hM, h1, h0, Matrix.transpose_transpose]

/-- A matrix whose transpose is a left inverse preserves the squared length. -/
theorem mulVec_dot_self (A : Matrix (Fin 3) (Fin 3) ℝ) (hA : A.transpose * A = 1)
    (v : Fin 3 → ℝ) :
    Matrix.dotProduct (Matrix.mulVec A v) (Matrix.mulVec A v) = Matrix.dotProduct v v := by
  rw [Matrix.dotProduct_mulVec, ← Matrix.mulVec_transpose, Matrix.mulVec_mulVec, hA,
    Matrix.one_mulVec]

/-- C20. Isometry: after a successful `Begin`, whatever the origin and the Euler angles,
`toGeometry` and `toLab` are defined on every point and preserve the squared Euclidean
distance of every two points (real arithmetic). -/
theorem C20_isometry (appBegin : G2PGeoBase ℝ → G2PGeoBase ℝ × Int) (g : G2PGeoBase ℝ)
    (p q : Fin 3 → ℝ) (h : (Begin Real.sin Real.cos appBegin g).2 = EStatus.kOK) :
    (∃ a b, toGeometry (Begin Real.sin Real.cos appBegin g).1 p = some a ∧
      toGeometry (Begin Real.sin Real.cos appBegin g).1 q = some b ∧
      Matrix.dotProduct (a - b) (a - b) = Matrix.dotProduct (p - q) (p - q)) ∧
    (∃ a b, toLab (Begin Real.sin Real.cos appBegin g).1 p = some a ∧
      toLab (Begin Real.sin Real.cos appBegin g).1 q = some b ∧
      Matrix.dotProduct (a - b) (a - b) = Matrix.dotProduct (p - q) (p - q)) := by
  obtain ⟨-, -, -, hT, hR, hL, hG⟩ := Begin_state Real.sin Real.cos appBegin g h
  have hOrth := Begin_orthogonal appBegin g h
  have hTr := Begin_transpose appBegin g h
  generalize (Begin Real.sin Real.cos appBegin g).1 = g' at *
  rw [← hT, ← hR] at hL hG
  cases hT' : g'.fTranslation <;> cases hR' : g'.fRotation <;>
    simp only [hT', hR', if_true, if_false, Bool.false_eq_true] at hL hG
  · refine ⟨⟨p, q, ?_, ?_, rfl⟩, ⟨p, q, ?_, ?_, rfl⟩⟩ <;>
      simp [toGeometry, toLab, hL, hG, Lab2GeoNoTNoR_eq, Geo2LabNoTNoR_eq]
  · obtain ⟨h10, h01⟩ := hOrth hR'
    have hF : (g'.fRotationMatrix 0).transpose * g'.fRotationMatrix 0 = 1 := by
      rw [← hTr hR']; exact h10
    have hFi : (g'.fRotationMatrix 1).transpose * g'.fRotationMatrix 1 = 1 := by
      rw [hTr hR', Matrix.transpose_transpose, ← hTr hR']; exact h01
    refine ⟨⟨Matrix.mulVec (g'.fRotationMatrix 0) p, Matrix.mulVec (g'.fRotationMatrix 0) q,
      ?_, ?_, ?_⟩, ⟨Matrix.mulVec (g'.fRotationMatrix 1) p,
      Matrix.mulVec (g'.fRotationMatrix 1) q, ?_, ?_, ?_⟩⟩
    · simp [toGeometry, hL, Lab2GeoNoT_eq_mulVec]
    · simp [toGeometry, hL, Lab2GeoNoT_eq_mulVec]
    · rw [← Matrix.mulVec_sub, mulVec_dot_self _ hF]
    · simp [toLab, hG, Geo2LabNoT_eq_mulVec]
    · simp [toLab, hG, Geo2LabNoT_eq_mulVec]
    · rw [← Matrix.mulVec_sub, mulVec_dot_self _ hFi]
  · refine ⟨⟨p - g'.fOrigin, q - g'.fOrigin, ?_, ?_, ?_⟩,
      ⟨p + g'.fOrigin, q + g'.fOrigin, ?_, ?_, ?_⟩⟩
    · simp [toGeometry, hL, Lab2GeoNoR_eq]
    · simp [toGeometry, hL, Lab2GeoNoR_eq]
    · rw [sub_sub_sub_cancel_right]
    · simp [toLab, hG, Geo2LabNoR_eq]
    · simp [toLab, hG, Geo2LabNoR_eq]
    · rw [add_sub_add_right_eq_sub]
  · obtain ⟨h10, h01⟩ := hOrth hR'
    have hF : (g'.fRotationMatrix 0).transpose * g'.fRotationMatrix 0 = 1 := by
      rw [← hTr hR']; exact h10
    have hFi : (g'.fRotationMatrix 1).transpose * g'.fRotationMatrix 1 = 1 := by
      rw [hTr hR', Matrix.transpose_transpose, ← hTr hR']; exact h01
    refine ⟨⟨Matrix.mulVec (g'.fRotationMatrix 0) (p - g'.fOrigin),
      Matrix.mulVec (g'.fRotationMatrix 0) (q - g'.fOrigin), ?_, ?_, ?_⟩,
      ⟨Matrix.mulVec (g'.fRotationMatrix 1) p + g'.fOrigin,
      Matrix.mulVec (g'.fRotationMatrix 1) q + g'.fOrigin, ?_, ?_, ?_⟩⟩
    · simp [toGeometry, hL, Lab2Geo, Lab2GeoNoR_eq, Lab2GeoNoT_eq_mulVec]
    · simp [toGeometry, hL, Lab2Geo, Lab2GeoNoR_eq, Lab2GeoNoT_eq_mulVec]
    · rw [← Matrix.mulVec_sub, mulVec_dot_self _ hF, sub_sub_sub_cancel_right]
    · simp [toLab, hG, Geo2Lab, Geo2LabNoR_eq, Geo2LabNoT_eq_mulVec]
    · simp [toLab, hG, Geo2Lab, Geo2LabNoR_eq, Geo2LabNoT_eq_mulVec]
    · rw [add_sub_add_right_eq_sub, ← Matrix.mulVec_sub, mulVec_dot_self _ hFi]

/-- Witness of C20: the example object, the points (4, 5, 6) and (7, 8, 9). -/
theorem C20_isometry_witness :
    (Begin Real.sin Real.cos (appBeginOk ℝ) (exampleGeo ℝ)).2 = EStatus.kOK ∧
    ∃ a b, toGeometry (Begin Real.sin Real.cos (appBeginOk ℝ) (exampleGeo ℝ)).1 ![4, 5, 6]
        = some a ∧
      toGeometry (Begin Real.sin Real.cos (appBeginOk ℝ) (exampleGeo ℝ)).1 ![7, 8, 9]
        = some b ∧
      Matrix.dotProduct (a - b) (a - b)
        = Matrix.dotProduct (![4, 5, 6] - ![7, 8, 9]) (![4, 5, 6] - ![7, 8, 9]) :=
  ⟨Begin_example.1,
    (C20_isometry (appBeginOk ℝ) (exampleGeo ℝ) ![4, 5, 6] ![7, 8, 9] Begin_example.1).1⟩

/-! ## Theorems: G2PPhysBase, lazy target mass -/

/-- The mass set by the first `SetTarget` on a fresh object is 0 or at least 1 in magnitude. -/
theorem SetTarget_fresh_mass {K : Type} [LinearOrderedField K] (Z A : Int)
    (h0 : (SetTarget Z A (G2PPhysBase.new : G2PPhysBase K)).fTargetMass ≠ 0) :
    1 ≤ |(SetTarget Z A (G2PPhysBase.new : G2PPhysBase K)).fTargetMass| := by
  have hfresh : |(0.0 : K)| < 1.0e-8 := by norm_num
  by_cases h1 : Z = 1
  · subst h1; norm_num [SetTarget, SetTargetMass, G2PPhysBase.new, hfresh, kU, abs_of_pos]
  by_cases h2 : Z = 2
  · subst h2; norm_num [SetTarget, SetTargetMass, G2PPhysBase.new, hfresh, kU, abs_of_pos]
  by_cases h6 : Z = 6
  · subst h6; norm_num [SetTarget, SetTargetMass, G2PPhysBase.new, hfresh, kU, abs_of_pos]
  by_cases h7 : Z = 7
  · subst h7; norm_num [SetTarget, SetTargetMass, G2PPhysBase.new, hfresh, kU, abs_of_pos]
  by_cases h8 : Z = 8
  · subst h8; norm_num [SetTarget, SetTargetMass, G2PPhysBase.new, hfresh, kU, abs_of_pos]
  by_cases h26 : Z = 26
  · subst h26; norm_num [SetTarget, SetTargetMass, G2PPhysBase.new, hfresh, kU, abs_of_pos]
  by_cases h29 : Z = 29
  · subst h29; norm_num [SetTarget, SetTargetMass, G2PPhysBase.new, hfresh, kU, abs_of_pos]
  by_cases h74 : Z = 74
  · subst h74; norm_num [SetTarget, SetTargetMass, G2PPhysBase.new, hfresh, kU, abs_of_pos]
  have hm : (SetTarget Z A (G2PPhysBase.new : G2PPhysBase K)).fTargetMass
      = (A : K) * 931.49406121 := by
    simp [SetTarget, SetTargetMass, G2PPhysBase.new, hfresh, h1, h2, h6, h7, h8, h26, h29, h74,
      kU]
  rw [hm] at h0 ⊢
  have hA : A ≠ 0 := by
    rintro rfl
    simp at h0
  have hA1 : (1 : K) ≤ |(A : K)| := by
    have : (1 : Int) ≤ |A| := Int.one_le_abs hA
    exact_mod_cast this
  rw [abs_mul]
  have hk : (1 : K) ≤ |(931.49406121 : K)| := by
    rw [abs_of_pos (by norm_num)]; norm_num
  calc (1 : K) = 1 * 1 := by ring
    _ ≤ |(A : K)| * |(931.49406121 : K)| := mul_le_mul hA1 hk (by norm_num) (abs_nonneg _)

/-- C13. Lazy target mass: `SetTarget Z A` always stores Z and A; it recomputes the target mass
when `|fTargetMass| < 1e-8` and leaves it as it is otherwise; so when the first `SetTarget` on
a fresh object yields a non-zero mass, every later `SetTarget` leaves that mass in place. -/
theorem C13_lazy_target_mass {K : Type} [LinearOrderedField K] (Z A Z1 A1 : Int)
    (p : G2PPhysBase K)
    (h0 : (SetTarget Z A (G2PPhysBase.new : G2PPhysBase K)).fTargetMass ≠ 0) :
    ((SetTarget Z1 A1 p).fZ = Z1 ∧ (SetTarget Z1 A1 p).fA = A1) ∧
    (¬ |p.fTargetMass| < 1.0e-8 → (SetTarget Z1 A1 p).fTargetMass = p.fTargetMass) ∧
    (|p.fTargetMass| < 1.0e-8 →
      SetTarget Z1 A1 p = SetTargetMass { p with fZ := Z1, fA := A1 }) ∧
    (SetTarget Z1 A1 (SetTarget Z A (G2PPhysBase.new : G2PPhysBase K))).fTargetMass
      = (SetTarget Z A (G2PPhysBase.new : G2PPhysBase K)).fTargetMass ∧
    (SetTarget Z1 A1 (SetTarget Z A (G2PPhysBase.new : G2PPhysBase K))).fZ = Z1 ∧
    (SetTarget Z1 A1 (SetTarget Z A (G2PPhysBase.new : G2PPhysBase K))).fA = A1 := by
  have hstore : ∀ p0 : G2PPhysBase K,
      (SetTarget Z1 A1 p0).fZ = Z1 ∧ (SetTarget Z1 A1 p0).fA = A1 := by
    intro p0
    unfold SetTarget
    by_cases hp : |p0.fTargetMass| < 1.0e-8 <;> simp [hp, SetTargetMass]
  have hkeep : ∀ p0 : G2PPhysBase K, ¬ |p0.fTargetMass| < 1.0e-8 →
      (SetTarget Z1 A1 p0).fTargetMass = p0.fTargetMass := by
    intro p0 hp
    simp [SetTarget, hp]
  have hbig := SetTarget_fresh_mass Z A h0
  have hnot : ¬ |(SetTarget Z A (G2PPhysBase.new : G2PPhysBase K)).fTargetMass| < 1.0e-8 := by
    intro hlt
    have : (1 : K) < 1.0e-8 := lt_of_le_of_lt hbig hlt
    norm_num at this
  refine ⟨hstore p, hkeep p, ?_, hkeep _ hnot, (hstore _).1, (hstore _).2⟩
  intro hp
  simp [SetTarget, hp]

/-- Witness of C13: `SetTarget 6 12` on a fresh object, then `SetTarget 1 1`. -/
theorem C13_lazy_target_mass_witness :
    (SetTarget 6 12 (G2PPhysBase.new : G2PPhysBase ℚ)).fTargetMass ≠ 0 ∧
    (SetTarget 1 1 (SetTarget 6 12 (G2PPhysBase.new : G2PPhysBase ℚ))).fTargetMass
      = (SetTarget 6 12 (G2PPhysBase.new : G2PPhysBase ℚ)).fTargetMass := by
  have h0 : (SetTarget 6 12 (G2PPhysBase.new : G2PPhysBase ℚ)).fTargetMass ≠ 0 := by
    norm_num [SetTarget, SetTargetMass, G2PPhysBase.new, kU, abs_of_pos]
  exact ⟨h0, (C13_lazy_target_mass 6 12 1 1 G2PPhysBase.new h0).2.2.2.1⟩

/-! ## Theorems: G2PMaterial against the formulas of the specification -/

theorem Dbl.ne_fin_zero_iff {K : Type} [LinearOrderedField K] (a : Dbl K) :
    Dbl.ne a (Dbl.fin 0) = true ↔ a ≠ Dbl.fin 0 := by
  cases a <;> simp [Dbl.ne]

theorem Dbl.neg_fin {K : Type} [LinearOrderedField K] (x : K) :
    -Dbl.fin x = Dbl.fin (-x) := rfl

/-- For a bound that is not negative the two clamps of the code clamp into `[0, bound]`. -/
theorem clampTail_eq_clampInto {K R : Type} [LinearOrderedField K] (h : K) (hh : 0 ≤ h)
    (v : Dbl K) (r : R) : clampTail (Dbl.fin h) (v, r) = (clampInto 0 h v, r) := by
  cases v with
  | fin a => rw [clampTail_fin]; rfl
  | pinf => simp [clampTail, clampInto, Dbl.gt, Dbl.lt, not_lt.mpr hh]
  | ninf => simp [clampTail, clampInto, Dbl.gt, Dbl.lt]
  | nan => simp [clampTail, clampInto]

/-- A value clamped into `[lo, hi]` is `NaN` or a number of the interval. -/
theorem clampInto_range {K : Type} [LinearOrderedField K] (lo hi : K) (h : lo ≤ hi)
    (v : Dbl K) :
    clampInto lo hi v = Dbl.nan ∨ ∃ x, clampInto lo hi v = Dbl.fin x ∧ lo ≤ x ∧ x ≤ hi := by
  cases v with
  | fin a => exact Or.inr ⟨_, rfl, le_max_left _ _, max_le h (min_le_right _ _)⟩
  | pinf => exact Or.inr ⟨_, rfl, h, le_refl _⟩
  | ninf => exact Or.inr ⟨_, rfl, le_refl _, h⟩
  | nan => exact Or.inl rfl

/-- A quotient by zero is not a number, and neither is its product with anything: it is never
equal to 0. -/
theorem Dbl.div_zero_mul_ne {K : Type} [LinearOrderedField K] (a : K) (c : Dbl K) :
    Dbl.ne (Dbl.fin a / Dbl.fin 0 * c) (Dbl.fin 0) = true := by
  show Dbl.ne (Dbl.mul (Dbl.div (Dbl.fin a) (Dbl.fin 0)) c) (Dbl.fin 0) = true
  simp only [Dbl.div, if_true]
  unfold Dbl.signedInf
  split_ifs <;> cases c <;> simp [Dbl.mul, Dbl.ne, Dbl.signedInf] <;> split_ifs <;> simp [Dbl.ne]

theorem Dbl.div_zero_ne {K : Type} [LinearOrderedField K] (a : K) :
    Dbl.ne (Dbl.fin a / Dbl.fin 0) (Dbl.fin 0) = true := by
  show Dbl.ne (Dbl.div (Dbl.fin a) (Dbl.fin 0)) (Dbl.fin 0) = true
  simp only [Dbl.div, if_true]
  unfold Dbl.signedInf
  split_ifs <;> simp [Dbl.ne]

/-- The two ways of writing the last quotient of `b` agree, whatever the denominator. -/
theorem Dbl.ninth_div {K : Type} [LinearOrderedField K] (x : K) (D : Dbl K) :
    Dbl.fin 1.0 / Dbl.fin 9.0 * Dbl.fin x / D = Dbl.fin x / (Dbl.fin 9 * D) := by
  have h9 : Dbl.fin (1.0 : K) / Dbl.fin 9.0 = Dbl.fin (1 / 9) := by
    rw [Dbl.fin_div_fin _ _ (by norm_num)]; norm_num
  rw [h9, Dbl.fin_mul_fin]
  cases D with
  | fin d =>
      rw [Dbl.fin_mul_fin]
      by_cases hd : d = 0
      · subst hd
        show Dbl.div _ _ = Dbl.div _ _
        simp only [Dbl.div, mul_zero, if_true]
        unfold Dbl.signedInf
        have h1 : (0 : K) < 1 / 9 * x ↔ 0 < x := by
          constructor <;> intro h <;> nlinarith
        have h2 : (1 : K) / 9 * x < 0 ↔ x < 0 := by
          constructor <;> intro h <;> nlinarith
        simp only [h1, h2]
      · rw [Dbl.fin_div_fin _ _ hd, Dbl.fin_div_fin _ _ (by simpa using hd)]
        congr 1
        field_simp
  | pinf =>
      show Dbl.div _ _ = Dbl.div _ (Dbl.mul _ _)
      simp [Dbl.div, Dbl.mul, Dbl.signedInf]
  | ninf =>
      show Dbl.div _ _ = Dbl.div _ (Dbl.mul _ _)
      norm_num [Dbl.div, Dbl.mul, Dbl.signedInf]
  | nan => rfl

/-- A line of `b`, written as the line through two table points one apart. -/
theorem seg_eq_lineThrough {K : Type} [LinearOrderedField K] (y0 y1 x0 x1 Z : K)
    (h : x1 - x0 = 1) :
    (Dbl.fin y1 - Dbl.fin y0) * Dbl.fin (Z - x0) + Dbl.fin y0
      = Dbl.fin (lineThrough x0 y0 x1 y1 Z) := by
  simp only [Dbl.fin_sub_fin, Dbl.fin_mul_fin, Dbl.fin_add_fin, lineThrough, h]
  congr 1
  ring

/-- C19. Tsai correction: `b` is the function of the specification: `b(0) = 0`, and for
`Z != 0` it is `(4/3)*(1 + (Z+1)/(9*(Lrad*Z + Lradp)))` with, for `Z <= 4`, the piecewise-linear
interpolation through the table points 1: (5.31, 6.144), 2: (4.79, 5.621), 3: (4.74, 5.805),
4: (4.71, 5.924), whose segments agree at 2 and 3, and for `Z > 4` the pair
`(ln(184.15*Z^(-1/3)), ln(1194*Z^(-2/3)))`. -/
theorem C19_tsai_correction {K : Type} [LinearOrderedField K] (lm : Libm K)
    (m : G2PMaterial K) :
    b lm m = bSpec lm m.fZ ∧
    ((LradInterp (1 : K) = 5.31 ∧ LradpInterp (1 : K) = 6.144) ∧
      (LradInterp (2 : K) = 4.79 ∧ LradpInterp (2 : K) = 5.621) ∧
      (LradInterp (3 : K) = 4.74 ∧ LradpInterp (3 : K) = 5.805) ∧
      (LradInterp (4 : K) = 4.71 ∧ LradpInterp (4 : K) = 5.924)) ∧
    (lineThrough (1 : K) 5.31 2 4.79 2 = lineThrough 2 4.79 3 4.74 2 ∧
      lineThrough (1 : K) 6.144 2 5.621 2 = lineThrough 2 5.621 3 5.805 2 ∧
      lineThrough (2 : K) 4.79 3 4.74 3 = lineThrough 3 4.74 4 4.71 3 ∧
      lineThrough (2 : K) 5.621 3 5.805 3 = lineThrough 3 5.805 4 5.924 3) := by
  refine ⟨?_, ?_, ?_⟩
  · unfold b bSpec
    by_cases h0 : m.fZ = 0
    · simp [h0]
    · have h43 : Dbl.fin (4.0 : K) / Dbl.fin 3.0 = Dbl.fin 4 / Dbl.fin 3 := by norm_num
      have h1 : Dbl.fin (1.0 : K) = Dbl.fin 1 := by norm_num
      simp only [h0, if_false, ne_eq, not_false_eq_true, if_true, Dbl.ninth_div, h43]
      rw [h1]
      by_cases h2 : m.fZ ≤ 2
      · have h4 : m.fZ ≤ 4 := by linarith
        simp only [h2, h4, if_true, LradInterp, LradpInterp]
        rw [seg_eq_lineThrough 5.31 4.79 1 2 m.fZ (by norm_num),
          seg_eq_lineThrough 6.144 5.621 1 2 m.fZ (by norm_num)]
      · by_cases h3 : m.fZ ≤ 3
        · have h4 : m.fZ ≤ 4 := by linarith
          simp only [h2, h3, h4, if_true, if_false, LradInterp, LradpInterp]
          rw [seg_eq_lineThrough 4.79 4.74 2 3 m.fZ (by norm_num),
            seg_eq_lineThrough 5.621 5.805 2 3 m.fZ (by norm_num)]
        · by_cases h4 : m.fZ ≤ 4
          · simp only [h2, h3, h4, if_true, if_false, LradInterp, LradpInterp]
            rw [seg_eq_lineThrough 4.74 4.71 3 4 m.fZ (by norm_num),
              seg_eq_lineThrough 5.805 5.924 3 4 m.fZ (by norm_num)]
          · have e1 : -Dbl.fin (1 : K) / Dbl.fin 3.0 = Dbl.fin (-(1 / 3)) := by
              rw [Dbl.neg_fin, Dbl.fin_div_fin _ _ (by norm_num)]; norm_num
            have e2 : -Dbl.fin (2.0 : K) / Dbl.fin 3.0 = Dbl.fin (-(2 / 3)) := by
              rw [Dbl.neg_fin, Dbl.fin_div_fin _ _ (by norm_num)]; norm_num
            have e3 : Dbl.fin (1194.0 : K) = Dbl.fin 1194 := by norm_num
            simp only [h2, h3, h4, if_false, e1, e2, e3]
  · norm_num [LradInterp, LradpInterp, lineThrough]
  · norm_num [lineThrough]

/-- C11 fails as stated: with radiation length 0 (density 1, l = 1) the quotient `l*1/0` is
`+inf`, the guard `thicknessr != 0` holds, the Gaussian sampler is called (the state of the
source advances) and its value is returned. -/
theorem C11_counterexample :
    ¬ (EnergyLoss Libm.real (constRand (Dbl.fin (1 / 2)) Dbl.pinf (Dbl.fin 2000))
          (zeroX0 ℝ) (Dbl.fin 1) (Dbl.fin 1) 0 = (Dbl.fin 0, 0) ∧
       MultiScattering Libm.real (constRand (Dbl.fin (1 / 2)) Dbl.pinf (Dbl.fin 2000))
          (zeroX0 ℝ) (Dbl.fin 1) (Dbl.fin 1) 0 = (Dbl.fin 0, 0)) := by
  rintro ⟨-, h⟩
  have hm : MultiScattering Libm.real (constRand (Dbl.fin (1 / 2)) Dbl.pinf (Dbl.fin 2000))
      (zeroX0 ℝ) (Dbl.fin 1) (Dbl.fin 1) 0 = (Dbl.pinf, 1) := by
    unfold MultiScattering
    simp only [zeroX0, Dbl.fin_mul_fin, Dbl.div_zero_ne, if_true, constRand]
  rw [hm] at h
  simp at h

/-- C11, amended. The divisions by the radiation length are not guarded. With `X0 = 0` (and a
finite density, E and l) the quotient `l*density/X0` is `NaN` or an infinity, never 0, so both
guards hold: `MultiScattering` returns the Gaussian sample and `Bremsstrahlung` draws the
uniform sample. With `X0 != 0`, `l*density = 0` and a finite Tsai factor, `EnergyLoss` and
`MultiScattering` return exactly 0 and leave the random source as it was. -/
theorem C11_zero_radiation_length {K R : Type} [LinearOrderedField K] (lm : Libm K)
    (pRand : G2PRand K R) (m : G2PMaterial K) (E l d x0 : K) (r : R)
    (hd : m.fDensity = Dbl.fin d) (hx : m.fX0 = Dbl.fin x0) :
    (x0 = 0 →
      (∃ w, MultiScattering lm pRand m (Dbl.fin E) (Dbl.fin l) r
        = pRand.Gaus (Dbl.fin 0) w r) ∧
      (∃ v, Bremsstrahlung lm pRand m (Dbl.fin E) (Dbl.fin l) r
        = clampTail (Dbl.fin E - kELECTRONMASS) (v, (pRand.Uniform r).2))) ∧
    (x0 ≠ 0 → l * d = 0 → (∃ bz : K, b lm m = Dbl.fin bz) →
      EnergyLoss lm pRand m (Dbl.fin E) (Dbl.fin l) r = (Dbl.fin 0, r) ∧
      MultiScattering lm pRand m (Dbl.fin E) (Dbl.fin l) r = (Dbl.fin 0, r)) := by
  constructor
  · intro h0
    subst h0
    constructor
    · unfold MultiScattering
      simp only [hd, hx, Dbl.fin_mul_fin, Dbl.div_zero_ne, if_true]
      exact ⟨_, rfl⟩
    · rw [Bremsstrahlung_eq_clampTail]
      simp only [hd, hx, Dbl.fin_mul_fin, Dbl.div_zero_mul_ne, if_true]
      exact ⟨_, rfl⟩
  · rintro hx0 hld ⟨bz, hbz⟩
    constructor
    · have hion : Ionization lm pRand m (Dbl.fin E * Dbl.fin 1000) (Dbl.fin l) r
          = (Dbl.fin 0, r) := by
        rw [Ionization_eq_clampTail]
        simp [hd, hld, kELECTRONMASS, clampTail_zero]
      have hbr : Bremsstrahlung lm pRand m (Dbl.fin E * Dbl.fin 1000) (Dbl.fin l) r
          = (Dbl.fin 0, r) := by
        rw [Bremsstrahlung_eq_clampTail]
        simp [hd, hx, hld, hbz, Dbl.fin_div_fin _ _ hx0, kELECTRONMASS, clampTail_zero]
      unfold EnergyLoss
      simp only [hion, hbr, Dbl.fin_add_fin]
      rw [Dbl.fin_div_fin _ _ (by norm_num)]
      simp
    · unfold MultiScattering
      norm_num [hd, hx, hld, Dbl.fin_div_fin _ _ hx0]

/-- Witness of C11 (amended): Z = 1, A = 1, density 1, radiation length 0, E = 1, l = 1. -/
theorem C11_zero_radiation_length_witness :
    ∃ w, MultiScattering Libm.real (constRand (Dbl.fin (1 / 2)) Dbl.pinf (Dbl.fin 2000))
        (zeroX0 ℝ) (Dbl.fin 1) (Dbl.fin 1) 0
      = (constRand (Dbl.fin (1 / 2)) Dbl.pinf (Dbl.fin 2000)).Gaus (Dbl.fin 0) w 0 :=
  ((C11_zero_radiation_length Libm.real (constRand (Dbl.fin (1 / 2)) Dbl.pinf (Dbl.fin 2000))
    (zeroX0 ℝ) 1 1 1 0 0 rfl rfl).1 rfl).1

/-- Zero is inside the range. -/
@[simp] theorem Dbl.range_zero {K : Type} [LinearOrderedField K] :
    Dbl.range (Dbl.fin (0 : K)) = Dbl.fin 0 := by
  have h1 : ¬ ((2 : K) ^ 1024 - 2 ^ 970 ≤ 0) := by norm_num
  have h2 : ¬ ((0 : K) ≤ -(2 ^ 1024 - 2 ^ 970)) := by norm_num
  have h3 : -(1 / (2 : K) ^ 1075) ≤ 0 ∧ (0 : K) ≤ 1 / 2 ^ 1075 := by
    constructor <;> norm_num
  simp only [Dbl.range, h1, h2, h3, if_false, if_true, and_self]

/-- A positive number between the underflow and the overflow threshold is kept. -/
theorem Dbl.range_fin_pos {K : Type} [LinearOrderedField K] (x : K)
    (h1 : 1 / 2 ^ 1075 < x) (h2 : x < 2 ^ 1024 - 2 ^ 970) :
    Dbl.range (Dbl.fin x) = Dbl.fin x := by
  have hpos : (0 : K) < 1 / 2 ^ 1075 := by positivity
  have hbig : (0 : K) < 2 ^ 1024 - 2 ^ 970 := by norm_num
  have a1 : ¬ ((2 : K) ^ 1024 - 2 ^ 970 ≤ x) := not_le.mpr h2
  have a2 : ¬ (x ≤ -((2 : K) ^ 1024 - 2 ^ 970)) := by
    intro h; linarith
  have a3 : ¬ (-(1 / (2 : K) ^ 1075) ≤ x ∧ x ≤ 1 / 2 ^ 1075) := by
    rintro ⟨-, h⟩; linarith
  simp only [Dbl.range, a1, a2, a3, if_false]

/-- A negative number between the overflow and the underflow threshold is kept. -/
theorem Dbl.range_fin_neg {K : Type} [LinearOrderedField K] (x : K)
    (h1 : x < -(1 / 2 ^ 1075)) (h2 : -(2 ^ 1024 - 2 ^ 970) < x) :
    Dbl.range (Dbl.fin x) = Dbl.fin x := by
  have hpos : (0 : K) < 1 / 2 ^ 1075 := by positivity
  have hbig : (0 : K) < 2 ^ 1024 - 2 ^ 970 := by norm_num
  have a1 : ¬ ((2 : K) ^ 1024 - 2 ^ 970 ≤ x) := by
    intro h; linarith
  have a2 : ¬ (x ≤ -((2 : K) ^ 1024 - 2 ^ 970)) := not_le.mpr h2
  have a3 : ¬ (-(1 / (2 : K) ^ 1075) ≤ x ∧ x ≤ 1 / 2 ^ 1075) := by
    rintro ⟨h, -⟩; linarith
  simp only [Dbl.range, a1, a2, a3, if_false]

/-- A result brought back into range is a number only if it was one, and then it has not
moved away from 0. -/
theorem Dbl.range_eq_fin {K : Type} [LinearOrderedField K] (a : Dbl K) (h : K)
    (ha : Dbl.range a = Dbl.fin h) :
    ∃ z, a = Dbl.fin z ∧ (h = z ∨ h = 0) := by
  cases a with
  | fin z =>
    refine ⟨z, rfl, ?_⟩
    simp only [Dbl.range] at ha
    split_ifs at ha
    · right; exact (Dbl.fin.inj ha).symm
    · left; exact (Dbl.fin.inj ha).symm
  | pinf => simp [Dbl.range] at ha
  | ninf => simp [Dbl.range] at ha
  | nan => simp [Dbl.range] at ha

/-- The two clamps leave a result of 0 at 0, whatever the bound. -/
theorem clampTail_zero_any {K R : Type} [LinearOrderedField K] (bound : Dbl K) (r : R) :
    clampTail bound (Dbl.fin 0, r) = (Dbl.fin 0, r) := by
  cases bound with
  | fin h => exact clampTail_zero h r
  | pinf => simp [clampTail, Dbl.gt, Dbl.lt]
  | ninf => simp [clampTail, Dbl.gt, Dbl.lt]
  | nan => simp [clampTail, Dbl.gt, Dbl.lt]

/-- The body of `Ranged.Ionization`: the guarded Landau sample, then the two clamps. -/
theorem Ranged.Ionization_body {K R : Type} [LinearOrderedField K] (lm : Libm K)
    (pRand : G2PRand K R) (m : G2PMaterial K) (E l : Dbl K) (r : R) :
    Ranged.Ionization lm pRand m E l r
      = clampTail (E.subR kELECTRONMASS)
          (if decide (m.fZ ≠ 0) && decide (m.fA ≠ 0)
              && Dbl.ne (l.mulR m.fDensity) (Dbl.fin 0) && Dbl.ne m.fDensity (Dbl.fin 0) then
            pRand.Landau
              ((Ranged.xiSpec m E l).mulR
                ((lm.log ((((Dbl.fin 2).mulR kELECTRONMASS).mulR (Ranged.xiSpec m E l)).divR
                  (Ranged.hw2Spec m))).addR (Dbl.fin 0.200)))
              ((Dbl.fin 4).mulR (Ranged.xiSpec m E l)) r
          else (Dbl.fin 0, r)) := rfl

/-- The body of `Ranged.Bremsstrahlung`: the guarded power of the uniform sample, then the two
clamps. -/
theorem Ranged.Bremsstrahlung_body {K R : Type} [LinearOrderedField K] (lm : Libm K)
    (pRand : G2PRand K R) (m : G2PMaterial K) (E l : Dbl K) (r : R) :
    Ranged.Bremsstrahlung lm pRand m E l r
      = clampTail (E.subR kELECTRONMASS)
          (if Dbl.ne (((l.mulR m.fDensity).divR m.fX0).mulR (Ranged.b lm m)) (Dbl.fin 0) then
            (E.mulR (lm.pow ((pRand.Uniform r).1.mulR (Dbl.fin 0.999))
                ((Dbl.fin 1).divR (((l.mulR m.fDensity).divR m.fX0).mulR (Ranged.b lm m)))),
              (pRand.Uniform r).2)
          else (Dbl.fin 0, r)) := rfl

/-- With `Z = 0` the Tsai factor is 0. -/
theorem Ranged.b_at_zero {K : Type} [LinearOrderedField K] (lm : Libm K) (m : G2PMaterial K)
    (hZ : m.fZ = 0) : Ranged.b lm m = Dbl.fin 0 := by
  simp [Ranged.b, hZ]

/-- A number times 0 is 0, also after it is brought back into range. -/
theorem Dbl.mulR_fin_zero {K : Type} [LinearOrderedField K] (t : K) :
    (Dbl.fin t).mulR (Dbl.fin 0) = Dbl.fin 0 := by
  simp [Dbl.mulR]

/-- With `Z = 0` or `A = 0` the guard of `Ranged.Ionization` fails: the result is 0 and the
sampler is not called. -/
theorem Ranged.Ionization_Z_A {K R : Type} [LinearOrderedField K] (lm : Libm K)
    (pRand : G2PRand K R) (m : G2PMaterial K) (E l : Dbl K) (r : R)
    (hZA : m.fZ = 0 ∨ m.fA = 0) :
    Ranged.Ionization lm pRand m E l r = (Dbl.fin 0, r) := by
  rw [Ranged.Ionization_body]
  rcases hZA with h | h <;> simp [h, clampTail_zero_any]

/-- C10, amended. For every material with Z = 0 or A = 0, every finite E and l, the ionization
contribution is exactly 0 and the Landau sampler is not called. With Z = 0, whenever the
quotient `l*density/X0` is computed as a number (no division by 0, no overflow), `EnergyLoss` is
exactly 0 and the random source is left as it was. `Bremsstrahlung` does not depend on A, and
`MultiScattering` depends neither on Z nor on A. -/
theorem C10_degenerate_Z_A {K R : Type} [LinearOrderedField K] (lm : Libm K)
    (pRand : G2PRand K R) (m : G2PMaterial K)
    (E l : K) (r : R) (hZA : m.fZ = 0 ∨ m.fA = 0) :
    Ranged.Ionization lm pRand m (Dbl.fin E) (Dbl.fin l) r = (Dbl.fin 0, r) ∧
    (m.fZ = 0 → ∀ t : K, ((Dbl.fin l).mulR m.fDensity).divR m.fX0 = Dbl.fin t →
      Ranged.EnergyLoss lm pRand m (Dbl.fin E) (Dbl.fin l) r = (Dbl.fin 0, r)) ∧
    (∀ a : K, Ranged.Bremsstrahlung lm pRand { m with fA := a } (Dbl.fin E) (Dbl.fin l) r
      = Ranged.Bremsstrahlung lm pRand m (Dbl.fin E) (Dbl.fin l) r) ∧
    (∀ z a : K,
      Ranged.MultiScattering lm pRand { m with fZ := z, fA := a } (Dbl.fin E) (Dbl.fin l) r
        = Ranged.MultiScattering lm pRand m (Dbl.fin E) (Dbl.fin l) r) := by
  refine ⟨Ranged.Ionization_Z_A lm pRand m _ _ r hZA, ?_, fun _ => rfl, fun _ _ => rfl⟩
  intro hZ t ht
  have hbr : ∀ e : Dbl K, Ranged.Bremsstrahlung lm pRand m e (Dbl.fin l) r = (Dbl.fin 0, r) := by
    intro e
    rw [Ranged.Bremsstrahlung_body, ht, Ranged.b_at_zero lm m hZ, Dbl.mulR_fin_zero]
    simp [clampTail_zero_any]
  unfold Ranged.EnergyLoss
  simp only [Ranged.Ionization_Z_A lm pRand m _ _ r (Or.inl hZ), hbr]
  have h0 : Dbl.fin (0 : K) / Dbl.fin 1000.0 = Dbl.fin 0 := by
    rw [Dbl.fin_div_fin _ _ (by norm_num)]; simp
  simp [Dbl.addR, Dbl.divR, h0]

/-- For `Z = 1` the Tsai factor is `210172/154629`, about 1.36, whatever `log` and `pow`
are. -/
theorem Ranged.b_at_one {K : Type} [LinearOrderedField K] (lm : Libm K) (m : G2PMaterial K)
    (hZ : m.fZ = 1) : Ranged.b lm m = Dbl.fin (210172 / 154629) := by
  unfold Ranged.b
  simp only [hZ]
  norm_num [Dbl.addR, Dbl.subR, Dbl.mulR, Dbl.divR, Dbl.range, Dbl.fin_div_fin]

/-- The sum `0 + 0` is 0, also after it is brought back into range. -/
theorem Dbl.addR_zero_zero {K : Type} [LinearOrderedField K] :
    (Dbl.fin (0 : K)).addR (Dbl.fin 0) = Dbl.fin 0 := by
  simp [Dbl.addR]

/-- The bremsstrahlung contribution for a material with Z = 1, density 1 and radiation length
1 at E = 1000 MeV, l = 1 and the uniform sample 1/2: a number between 499.5 and
1000 - 0.510998918, after one call of the sampler. -/
theorem Ranged.Bremsstrahlung_sample (m : G2PMaterial ℝ) (hZ : m.fZ = 1)
    (hd : m.fDensity = Dbl.fin 1) (hx : m.fX0 = Dbl.fin 1) (g lan : Dbl ℝ) (r : Nat) :
    ∃ x : ℝ, Ranged.Bremsstrahlung Libm.real (constRand (Dbl.fin (1 / 2)) g lan) m
        (Dbl.fin 1000) (Dbl.fin 1) r = (Dbl.fin x, r + 1) ∧ 499.5 ≤ x ∧
        x ≤ 1000 - 0.510998918 := by
  have hbt : (((Dbl.fin (1 : ℝ)).mulR m.fDensity).divR m.fX0).mulR (Ranged.b Libm.real m)
      = Dbl.fin (210172 / 154629) := by
    rw [Ranged.b_at_one Libm.real m hZ, hd, hx]
    norm_num [Dbl.mulR, Dbl.divR, Dbl.range, Dbl.fin_div_fin]
  have hu : (Dbl.fin (1 / 2 : ℝ)).mulR (Dbl.fin 0.999) = Dbl.fin (999 / 2000) := by
    norm_num [Dbl.mulR, Dbl.range]
  have he : (Dbl.fin (1 : ℝ)).divR (Dbl.fin (210172 / 154629)) = Dbl.fin (154629 / 210172) := by
    norm_num [Dbl.divR, Dbl.range, Dbl.fin_div_fin]
  have hpow : Libm.real.pow (Dbl.fin (999 / 2000)) (Dbl.fin (154629 / 210172))
      = Dbl.fin ((999 / 2000 : ℝ) ^ (154629 / 210172 : ℝ)) :=
    realPow_pos _ _ (by norm_num) (by norm_num) (by norm_num)
  have hlow : (999 / 2000 : ℝ) ≤ (999 / 2000 : ℝ) ^ (154629 / 210172 : ℝ) := by
    have h1 : (999 / 2000 : ℝ) ^ (1 : ℝ) ≤ (999 / 2000 : ℝ) ^ (154629 / 210172 : ℝ) :=
      Real.rpow_le_rpow_of_exponent_ge (by norm_num) (by norm_num) (by norm_num)
    simpa using h1
  have hup : (999 / 2000 : ℝ) ^ (154629 / 210172 : ℝ) ≤ 1 :=
    Real.rpow_le_one (by norm_num) (by norm_num) (by norm_num)
  have hprod : (Dbl.fin (1000 : ℝ)).mulR (Dbl.fin ((999 / 2000 : ℝ) ^ (154629 / 210172 : ℝ)))
      = Dbl.fin (1000 * (999 / 2000 : ℝ) ^ (154629 / 210172 : ℝ)) := by
    unfold Dbl.mulR
    rw [Dbl.fin_mul_fin]
    apply Dbl.range_fin_pos
    · have : (1 : ℝ) / 2 ^ 1075 < 1 := by norm_num
      linarith
    · have : (1000 : ℝ) < 2 ^ 1024 - 2 ^ 970 := by norm_num
      linarith
  have hbound : (Dbl.fin (1000 : ℝ)).subR kELECTRONMASS = Dbl.fin (1000 - 0.510998918) := by
    norm_num [Dbl.subR, Dbl.range, kELECTRONMASS]
  refine ⟨max 0 (min (1000 * (999 / 2000 : ℝ) ^ (154629 / 210172 : ℝ)) (1000 - 0.510998918)),
    ?_, ?_, ?_⟩
  · rw [Ranged.Bremsstrahlung_body, hbt]
    have hne : Dbl.ne (Dbl.fin (210172 / 154629 : ℝ)) (Dbl.fin 0) = true := by
      norm_num [Dbl.ne_fin_fin]
    rw [hne, if_pos rfl]
    simp only [constRand, hu, he, hpow, hprod, hbound]
    rw [clampTail_fin]
  · apply le_max_of_le_right
    apply le_min
    · linarith
    · norm_num
  · apply max_le
    · norm_num
    · exact min_le_right _ _

/-- The energy loss for a material with A = 0 (Z = 1, density 1, radiation length 1) at
E = 1 GeV, l = 1 and the uniform sample 1/2: the ionization part is 0 and the bremsstrahlung
part is drawn, so the loss is at least 0.4995 GeV after one call of the sampler. -/
theorem Ranged.EnergyLoss_zeroA (g lan : Dbl ℝ) :
    ∃ x : ℝ, Ranged.EnergyLoss Libm.real (constRand (Dbl.fin (1 / 2)) g lan) (zeroA ℝ)
        (Dbl.fin 1) (Dbl.fin 1) 0 = (Dbl.fin x, 1) ∧ 0.4995 ≤ x := by
  obtain ⟨y, hy, hy1, hy2⟩ :=
    Ranged.Bremsstrahlung_sample (zeroA ℝ) rfl rfl rfl g lan 0
  have hE : (Dbl.fin (1 : ℝ)).mulR (Dbl.fin 1000) = Dbl.fin 1000 := by
    norm_num [Dbl.mulR, Dbl.range]
  have hsum : (Dbl.fin (0 : ℝ)).addR (Dbl.fin y) = Dbl.fin y := by
    unfold Dbl.addR
    rw [Dbl.fin_add_fin, zero_add]
    apply Dbl.range_fin_pos
    · have : (1 : ℝ) / 2 ^ 1075 < 1 := by norm_num
      linarith
    · have : (1000 : ℝ) < 2 ^ 1024 - 2 ^ 970 := by norm_num
      linarith
  have hquot : (Dbl.fin y).divR (Dbl.fin 1000.0) = Dbl.fin (y / 1000) := by
    unfold Dbl.divR
    rw [Dbl.fin_div_fin _ _ (by norm_num)]
    have h1000 : (1000.0 : ℝ) = 1000 := by norm_num
    rw [h1000]
    apply Dbl.range_fin_pos
    · have : (1 : ℝ) / 2 ^ 1075 < 1 / 1000 := by norm_num
      have : (1 : ℝ) / 1000 < y / 1000 := by
        apply div_lt_div_of_pos_right _ (by norm_num)
        linarith
      linarith
    · have : (1 : ℝ) < 2 ^ 1024 - 2 ^ 970 := by norm_num
      have : y / 1000 ≤ 1 := by
        rw [div_le_one (by norm_num)]
        linarith
      linarith
  refine ⟨y / 1000, ?_, ?_⟩
  · unfold Ranged.EnergyLoss
    simp only [hE, Ranged.Ionization_Z_A Libm.real _ (zeroA ℝ) _ _ 0 (Or.inr rfl), hy]
    rw [Dbl.addR_zero_zero, hsum, hquot]
  · rw [le_div_iff₀ (by norm_num)]
    linarith

/-- The energy loss for a material with Z = 0 and radiation length 0 (A = 1, density 1) at
E = 1 GeV, l = 1: `1/0` is `+inf`, `inf * b()` with `b() = 0` is `NaN`, which passes the guard
`bt != 0`: the uniform sampler is called and the loss is `NaN`. -/
theorem Ranged.EnergyLoss_zeroZzeroX0 (g lan : Dbl ℝ) :
    Ranged.EnergyLoss Libm.real (constRand (Dbl.fin (1 / 2)) g lan) (zeroZzeroX0 ℝ)
        (Dbl.fin 1) (Dbl.fin 1) 0 = (Dbl.nan, 1) := by
  have hbt : (((Dbl.fin (1 : ℝ)).mulR (zeroZzeroX0 ℝ).fDensity).divR (zeroZzeroX0 ℝ).fX0).mulR
      (Ranged.b Libm.real (zeroZzeroX0 ℝ)) = Dbl.nan := by
    rw [Ranged.b_at_zero Libm.real (zeroZzeroX0 ℝ) rfl]
    have h1 : (Dbl.fin (1 : ℝ)).mulR (zeroZzeroX0 ℝ).fDensity = Dbl.fin 1 := by
      norm_num [Dbl.mulR, Dbl.range, zeroZzeroX0]
    have h2 : (Dbl.fin (1 : ℝ)).divR (zeroZzeroX0 ℝ).fX0 = Dbl.pinf := by
      simp [Dbl.divR, Dbl.range, zeroZzeroX0, Dbl.div, Dbl.signedInf,
        show Dbl.fin (1 : ℝ) / Dbl.fin 0 = Dbl.div (Dbl.fin 1) (Dbl.fin 0) from rfl]
    rw [h1, h2]
    simp [Dbl.mulR, Dbl.range, Dbl.mul, Dbl.signedInf,
      show Dbl.pinf * Dbl.fin (0 : ℝ) = Dbl.mul Dbl.pinf (Dbl.fin 0) from rfl]
  have hbr : ∀ e : Dbl ℝ, Ranged.Bremsstrahlung Libm.real (constRand (Dbl.fin (1 / 2)) g lan)
      (zeroZzeroX0 ℝ) e (Dbl.fin 1) 0 = (Dbl.nan, 1) := by
    intro e
    rw [Ranged.Bremsstrahlung_body, hbt]
    have hu : (Dbl.fin (1 / 2 : ℝ)).mulR (Dbl.fin 0.999) = Dbl.fin (999 / 2000) := by
      norm_num [Dbl.mulR, Dbl.range]
    have hq : (Dbl.fin (1 : ℝ)).divR Dbl.nan = Dbl.nan := rfl
    have hp : Libm.real.pow (Dbl.fin (999 / 2000)) Dbl.nan = Dbl.nan := by
      have h1 : ¬ ((999 : ℝ) / 2000 = 1) := by norm_num
      simp [Libm.real, realPow, h1]
    have hm : e.mulR Dbl.nan = Dbl.nan := by
      cases e <;> rfl
    simp only [constRand, hu, hq, hp, hm, Dbl.ne, if_true]
    exact clampTail_nan _ _
  unfold Ranged.EnergyLoss
  simp only [Ranged.Ionization_Z_A Libm.real _ (zeroZzeroX0 ℝ) _ _ 0 (Or.inl rfl), hbr]
  rw [Dbl.addR_zero_zero]
  rfl

/-- The scattering angle for a material of density 1 and radiation length 1 at l = 1: the
Gaussian sample, after one call of the sampler, whatever Z and A are. -/
theorem Ranged.MultiScattering_sample (m : G2PMaterial ℝ) (hd : m.fDensity = Dbl.fin 1)
    (hx : m.fX0 = Dbl.fin 1) (u g lan : Dbl ℝ) (E : Dbl ℝ) :
    Ranged.MultiScattering Libm.real (constRand u g lan) m E (Dbl.fin 1) 0 = (g, 1) := by
  have ht : ((Dbl.fin (1 : ℝ)).mulR m.fDensity).divR m.fX0 = Dbl.fin 1 := by
    rw [hd, hx]
    norm_num [Dbl.mulR, Dbl.divR, Dbl.range, Dbl.fin_div_fin]
  unfold Ranged.MultiScattering
  simp only [ht]
  simp [constRand, Dbl.ne_fin_fin]

/-- C10 fails as stated. With A = 0 and Z = 1 (density 1, radiation length 1, E = 1 GeV,
l = 1, uniform sample 1/2) `EnergyLoss` is at least 0.4995 GeV, not 0: the bremsstrahlung part
does not look at A. With Z = 0 and radiation length 0 it is `NaN`, not 0. And `MultiScattering`
returns the Gaussian sample, here 0.01, not 0, with A = 0 as well as with Z = 0 and A = 0. -/
theorem C10_counterexample :
    (∃ x : ℝ, Ranged.EnergyLoss Libm.real
        (constRand (Dbl.fin (1 / 2)) (Dbl.fin 0.01) (Dbl.fin 2000)) (zeroA ℝ)
        (Dbl.fin 1) (Dbl.fin 1) 0 = (Dbl.fin x, 1) ∧ 0.4995 ≤ x) ∧
    Ranged.EnergyLoss Libm.real
        (constRand (Dbl.fin (1 / 2)) (Dbl.fin 0.01) (Dbl.fin 2000)) (zeroZzeroX0 ℝ)
        (Dbl.fin 1) (Dbl.fin 1) 0 = (Dbl.nan, 1) ∧
    Ranged.MultiScattering Libm.real
        (constRand (Dbl.fin (1 / 2)) (Dbl.fin 0.01) (Dbl.fin 2000)) (zeroA ℝ)
        (Dbl.fin 1) (Dbl.fin 1) 0 = (Dbl.fin 0.01, 1) ∧
    Ranged.MultiScattering Libm.real
        (constRand (Dbl.fin (1 / 2)) (Dbl.fin 0.01) (Dbl.fin 2000)) (zeroZA ℝ)
        (Dbl.fin 1) (Dbl.fin 1) 0 = (Dbl.fin 0.01, 1) :=
  ⟨Ranged.EnergyLoss_zeroA _ _, Ranged.EnergyLoss_zeroZzeroX0 _ _,
    Ranged.MultiScattering_sample (zeroA ℝ) rfl rfl _ _ _ _,
    Ranged.MultiScattering_sample (zeroZA ℝ) rfl rfl _ _ _ _⟩

/-- Witness of C10 (amended): Z = 0, A = 0, density 1, radiation length 1, E = 1, l = 1, where
the quotient `l*density/X0` is computed as 1. -/
theorem C10_degenerate_Z_A_witness :
    Ranged.Ionization Libm.real (constRand (Dbl.fin (1 / 2)) (Dbl.fin 0.01) (Dbl.fin 2000))
        (zeroZA ℝ) (Dbl.fin 1) (Dbl.fin 1) 0 = (Dbl.fin 0, 0) ∧
    Ranged.EnergyLoss Libm.real (constRand (Dbl.fin (1 / 2)) (Dbl.fin 0.01) (Dbl.fin 2000))
        (zeroZA ℝ) (Dbl.fin 1) (Dbl.fin 1) 0 = (Dbl.fin 0, 0) :=
  ⟨(C10_degenerate_Z_A Libm.real _ (zeroZA ℝ) 1 1 0 (Or.inl rfl)).1,
    (C10_degenerate_Z_A Libm.real _ (zeroZA ℝ) 1 1 0 (Or.inl rfl)).2.1 rfl 1
      (by norm_num [Dbl.mulR, Dbl.divR, Dbl.range, Dbl.fin_div_fin, zeroZA])⟩

/-- The guard of `Ranged.Ionization` fails exactly when Z = 0 or A = 0 or density = 0 or the
computed thickness is 0. -/
theorem Ranged.Ionization_guard {K : Type} [LinearOrderedField K] (m : G2PMaterial K)
    (l : Dbl K) :
    (decide (m.fZ ≠ 0) && decide (m.fA ≠ 0) && Dbl.ne (l.mulR m.fDensity) (Dbl.fin 0)
        && Dbl.ne m.fDensity (Dbl.fin 0)) = true
      ↔ ¬ (m.fZ = 0 ∨ m.fA = 0 ∨ m.fDensity = Dbl.fin 0 ∨ l.mulR m.fDensity = Dbl.fin 0) := by
  simp only [Bool.and_eq_true, decide_eq_true_eq, Dbl.ne_fin_zero_iff]
  tauto

/-- When `E - me` is computed as the number `h`, for E not below the electron mass,
`Ranged.Ionization` is the function the specification describes, with the thickness as
computed. -/
theorem Ranged.Ionization_refines {K R : Type} [LinearOrderedField K] (lm : Libm K)
    (pRand : G2PRand K R) (m : G2PMaterial K) (E l h : K) (r : R)
    (hh0 : 0 ≤ h) (hh : (Dbl.fin E).subR kELECTRONMASS = Dbl.fin h) :
    Ranged.Ionization lm pRand m (Dbl.fin E) (Dbl.fin l) r
      = Ranged.IonizationSpec lm pRand m E l h r := by
  rw [Ranged.Ionization_body, hh]
  unfold Ranged.IonizationSpec
  by_cases hdeg : m.fZ = 0 ∨ m.fA = 0 ∨ m.fDensity = Dbl.fin 0
      ∨ (Dbl.fin l).mulR m.fDensity = Dbl.fin 0
  · have hg : (decide (m.fZ ≠ 0) && decide (m.fA ≠ 0)
        && Dbl.ne ((Dbl.fin l).mulR m.fDensity) (Dbl.fin 0)
        && Dbl.ne m.fDensity (Dbl.fin 0)) = false := by
      rw [← Bool.not_eq_true, Ranged.Ionization_guard]
      exact not_not.mpr hdeg
    rw [if_pos hdeg, hg]
    simp [clampTail_zero]
  · have hg := (Ranged.Ionization_guard m (Dbl.fin l)).2 hdeg
    rw [if_neg hdeg, hg, if_pos rfl]
    have h02 : Dbl.fin (0.200 : K) = Dbl.fin 0.2 := by norm_num
    rw [h02]
    exact clampTail_eq_clampInto h hh0 _ _

/-- The difference `E - me` as computed, for E not below the electron mass: a number between 0
and the exact difference. -/
theorem Dbl.subR_mass {K : Type} [LinearOrderedField K] (E h : K) (hE : 0.510998918 ≤ E)
    (hh : (Dbl.fin E).subR kELECTRONMASS = Dbl.fin h) : 0 ≤ h ∧ h ≤ E - 0.510998918 := by
  have h1 : Dbl.fin E - kELECTRONMASS = Dbl.fin (E - 0.510998918) := by
    simp [kELECTRONMASS]
  unfold Dbl.subR at hh
  rw [h1] at hh
  obtain ⟨z, hz, hhz⟩ := Dbl.range_eq_fin _ _ hh
  have hz2 : E - 0.510998918 = z := Dbl.fin.inj hz
  rcases hhz with h2 | h2
  · rw [h2, ← hz2]; exact ⟨by linarith, le_refl _⟩
  · rw [h2]; exact ⟨le_refl _, by linarith⟩

/-- The product of two numbers is computed as 0 exactly when the exact product is at most
`2^-1075` in magnitude: when a factor is 0, and when the product underflows. -/
theorem Dbl.mulR_eq_zero_iff {K : Type} [LinearOrderedField K] (x y : K) :
    (Dbl.fin x).mulR (Dbl.fin y) = Dbl.fin 0
      ↔ -(1 / 2 ^ 1075) ≤ x * y ∧ x * y ≤ 1 / 2 ^ 1075 := by
  have hpos : (0 : K) < 1 / 2 ^ 1075 := by positivity
  have hbig : (1 : K) / 2 ^ 1075 < 2 ^ 1024 - 2 ^ 970 := by norm_num
  unfold Dbl.mulR
  rw [Dbl.fin_mul_fin]
  simp only [Dbl.range]
  split_ifs with h1 h2 h3
  · constructor
    · intro h; cases h
    · rintro ⟨-, h⟩; linarith
  · constructor
    · intro h; cases h
    · rintro ⟨h, -⟩; linarith
  · exact ⟨fun _ => h3, fun _ => rfl⟩
  · constructor
    · intro h
      have hz : x * y = 0 := Dbl.fin.inj h
      rw [hz]
      exact ⟨by linarith, hpos.le⟩
    · intro h; exact absurd h h3

/-- C16 fails as stated. With Z = 1, A = 1, density 1e-200 and l = 1e-200 (E = 1000 MeV, Landau
sample 2 MeV) none of Z, A, density and l is 0, so the function of the claim gives the sample 2
after one call of the sampler; but the product `l*density` underflows to 0, the guard
`thickness != 0` fails, and the code returns 0 without calling the sampler. -/
theorem C16_counterexample :
    Ranged.Ionization Libm.real (constRand (Dbl.fin (1 / 2)) (Dbl.fin 0) (Dbl.fin 2))
        (tinyDensity ℝ) (Dbl.fin 1000) (Dbl.fin 1e-200) 0 = (Dbl.fin 0, 0) ∧
    IonizationSpec Libm.real (constRand (Dbl.fin (1 / 2)) (Dbl.fin 0) (Dbl.fin 2))
        (tinyDensity ℝ) 1000 1e-200 0 = (Dbl.fin 2, 1) := by
  constructor
  · rw [Ranged.Ionization_body]
    have ht : (Dbl.fin (1e-200 : ℝ)).mulR (tinyDensity ℝ).fDensity = Dbl.fin 0 := by
      norm_num [Dbl.mulR, Dbl.range, tinyDensity]
    rw [ht]
    simp [clampTail_zero_any]
  · unfold IonizationSpec
    have hdeg : ¬ ((tinyDensity ℝ).fZ = 0 ∨ (tinyDensity ℝ).fA = 0
        ∨ (tinyDensity ℝ).fDensity = Dbl.fin 0 ∨ (1e-200 : ℝ) = 0) := by
      norm_num [tinyDensity]
    rw [if_neg hdeg]
    norm_num [constRand, clampInto]

/-- C16, amended. For E (in MeV) not below the electron mass, with `h` the difference `E - me`
as computed, `Ionization` is exactly 0, without a Landau sample, when Z = 0 or A = 0 or
density = 0 or the product `l*density` is computed as 0, and otherwise it is the Landau sample
with location `xi*(ln(2*me*xi/hw2) + 0.2)` and width `4*xi`, where
`xi = 0.307075/2*Z/A*(l*density)/beta^2`, clamped into `[0, h]`. For a finite density the
product is computed as 0 exactly when its magnitude is at most `2^-1075`, as it is for l = 0.
The result is `NaN` or a number of `[0, E - me]`. -/
theorem C16_ionization {K R : Type} [LinearOrderedField K] (lm : Libm K)
    (pRand : G2PRand K R) (m : G2PMaterial K) (E l h : K) (r : R)
    (hE : 0.510998918 ≤ E) (hh : (Dbl.fin E).subR kELECTRONMASS = Dbl.fin h) :
    Ranged.Ionization lm pRand m (Dbl.fin E) (Dbl.fin l) r
      = Ranged.IonizationSpec lm pRand m E l h r ∧
    (m.fZ = 0 ∨ m.fA = 0 ∨ m.fDensity = Dbl.fin 0
        ∨ (Dbl.fin l).mulR m.fDensity = Dbl.fin 0 →
      Ranged.Ionization lm pRand m (Dbl.fin E) (Dbl.fin l) r = (Dbl.fin 0, r)) ∧
    (∀ d : K, m.fDensity = Dbl.fin d →
      ((Dbl.fin l).mulR m.fDensity = Dbl.fin 0
        ↔ -(1 / 2 ^ 1075) ≤ l * d ∧ l * d ≤ 1 / 2 ^ 1075) ∧
      (l = 0 → (Dbl.fin l).mulR m.fDensity = Dbl.fin 0)) ∧
    ((Ranged.Ionization lm pRand m (Dbl.fin E) (Dbl.fin l) r).1 = Dbl.nan ∨
      ∃ x, (Ranged.Ionization lm pRand m (Dbl.fin E) (Dbl.fin l) r).1 = Dbl.fin x ∧ 0 ≤ x ∧
        x ≤ E - 0.510998918) := by
  obtain ⟨hh0, hh1⟩ := Dbl.subR_mass E h hE hh
  have heq := Ranged.Ionization_refines lm pRand m E l h r hh0 hh
  refine ⟨heq, ?_, ?_, ?_⟩
  · intro hdeg
    rw [heq]
    unfold Ranged.IonizationSpec
    rw [if_pos hdeg]
  · intro d hd
    rw [hd]
    refine ⟨Dbl.mulR_eq_zero_iff l d, fun hl => ?_⟩
    rw [hl]
    simp [Dbl.mulR]
  · rw [heq]
    unfold Ranged.IonizationSpec
    split_ifs
    · exact Or.inr ⟨0, rfl, le_refl _, by linarith⟩
    · rcases clampInto_range 0 h hh0 (pRand.Landau _ _ r).1 with hn | ⟨x, hx, hx0, hx1⟩
      · exact Or.inl hn
      · exact Or.inr ⟨x, hx, hx0, by linarith⟩

/-- Witness of C16 (amended): the example material at E = 1000 MeV and l = 1, where `E - me`
is computed as `1000 - 0.510998918`. -/
theorem C16_ionization_witness :
    Ranged.Ionization Libm.real (constRand (Dbl.fin (1 / 2)) (Dbl.fin 0) (Dbl.fin 2000))
        (exampleMaterial ℝ) (Dbl.fin 1000) (Dbl.fin 1) 0
      = Ranged.IonizationSpec Libm.real (constRand (Dbl.fin (1 / 2)) (Dbl.fin 0) (Dbl.fin 2000))
        (exampleMaterial ℝ) 1000 1 (1000 - 0.510998918) 0 :=
  (C16_ionization Libm.real _ (exampleMaterial ℝ) 1000 1 (1000 - 0.510998918) 0 (by norm_num)
    (by norm_num [Dbl.subR, Dbl.range, kELECTRONMASS])).1

/-! ## Theorems: G2PGeoSieve -/

end G2P
